import Mathlib

/-!
# BlueNRG-M0 driver: transport framer, event demultiplexer, connection state machine

A shallow embedding of `src/src/hci_tl_interface.c`, `src/src/bnrgm0_evt_rx.c`
and `src/src/bnrgm0.c`.

Conventions of the embedding

* C unsigned integers are natural numbers; a value is reduced modulo `2 ^ w`
  where the C code stores it into a `w`-bit object and the reduction can matter.
* A C pointer to a byte buffer is a function from the index to the byte.
* The SPI bus, the millisecond clock and the radio command API are external:
  they are passed in as streams (the answer to the k-th request).
* Loops that the C code does not bound run on fuel; `none` means that the fuel
  ran out before the loop was left.
-/

namespace Bnrgm0

/-! ## Machine arithmetic -/

/-- Value of a natural number stored in a `uint8_t`. -/
def u8 (x : Nat) : Nat := x % 256

/-- Value of a natural number stored in a `uint16_t`. -/
def u16 (x : Nat) : Nat := x % 65536

/-- Difference `a - b` of two `uint32_t` values, as C computes it (modulo `2 ^ 32`). -/
def u32sub (a b : Nat) : Nat := (a % 4294967296 + 4294967296 - b % 4294967296) % 4294967296

/-! ## Transport framer (`hci_tl_interface.c`) -/

def HEADER_SIZE : Nat := 5
def MAX_BUFFER_SIZE : Nat := 255
def TIMEOUT_DURATION : Nat := 15

/-- The five bytes `header_slave[0..4]` that the device clocks out during a header exchange. -/
structure Header where
  b0 : Nat
  b1 : Nat
  b2 : Nat
  b3 : Nat
  b4 : Nat
  deriving DecidableEq, Repr

/-- Operations on the bus and on the interrupt controller, in the order the driver performs them. -/
inductive BusOp where
  /-- `HCI_TL_SPI_Disable_IRQ()` -/
  | irq_disable
  /-- `HCI_TL_SPI_Enable_IRQ()` -/
  | irq_enable
  /-- `gpio_reset(ble_hw.cs_pin)`: chip-select asserted -/
  | cs_reset
  /-- `gpio_set(ble_hw.cs_pin)`: chip-select released -/
  | cs_set
  /-- `spi_writeMultiple8(SPIx, header_master, header_slave, HEADER_SIZE)` -/
  | header_exchange (header_master : List Nat)
  /-- `spi_writeMultiple8(SPIx, buffer, read_char_buf, size)`: the payload bytes put on the bus -/
  | payload_write (bytes : List Nat)
  /-- `spi_write8(SPIx, char_ff)`: one byte read from the bus -/
  | byte_read (tx : Nat)
  deriving DecidableEq, Repr

/-- The `header_master` of `HCI_TL_SPI_Send`. -/
def send_header_master : List Nat := [0x0a, 0x00, 0x00, 0x00, 0x00]

/-- The `header_master` of `HCI_TL_SPI_Receive`. -/
def receive_header_master : List Nat := [0x0b, 0x00, 0x00, 0x00, 0x00]

/-- The `size` bytes that `spi_writeMultiple8(SPIx, buffer, read_char_buf, size)` transmits. -/
def payloadBytes (buffer : Nat → Nat) (size : Nat) : List Nat :=
  (List.range size).map fun i => u8 (buffer i)

/-- One pass through the body of the do-while loop of `HCI_TL_SPI_Send`, up to and including
the release of chip-select: the value left in `result` and the bus trace extended by the pass.
`header_slave` is what the device answers to the header exchange of this pass. -/
def sendAttempt (header_slave : Header) (buffer : Nat → Nat) (size : Nat) (tr : List BusOp) :
    Int × List BusOp :=
  -- CS reset, read header
  let tr := tr ++ [BusOp.cs_reset, BusOp.header_exchange send_header_master]
  let attempt : Int × List BusOp :=
    if u8 header_slave.b0 = 0x02 then
      -- SPI is ready
      if u8 header_slave.b1 ≥ size then
        (0, tr ++ [BusOp.payload_write (payloadBytes buffer size)])
      else
        -- Buffer is too small
        (-2, tr)
    else
      -- SPI is not ready
      (-1, tr)
  -- Release CS line
  (attempt.1, attempt.2 ++ [BusOp.cs_set])

/-- The do-while loop of `HCI_TL_SPI_Send`.  `k` counts the attempts made so far: attempt `k`
receives the header `dev k`, and the clock reading taken after it is `millis (k + 1)`
(`millis 0` is `tickstart`).  `tr` is the bus trace so far. -/
def sendLoop (dev : Nat → Header) (millis : Nat → Nat) (buffer : Nat → Nat) (size : Nat)
    (tickstart : Nat) : Nat → Nat → List BusOp → Option (Int × List BusOp)
  | 0, _, _ => none
  | fuel + 1, k, tr =>
    let attempt := sendAttempt (dev k) buffer size tr
    if u32sub (millis (k + 1)) tickstart > TIMEOUT_DURATION then
      some (-3, attempt.2)
    else if attempt.1 < 0 then
      sendLoop dev millis buffer size tickstart fuel (k + 1) attempt.2
    else
      some (attempt.1, attempt.2)

/-- `int32_t HCI_TL_SPI_Send(uint8_t *buffer, uint16_t size)`: the result and the bus trace. -/
def HCI_TL_SPI_Send (dev : Nat → Header) (millis : Nat → Nat) (buffer : Nat → Nat) (size : Nat)
    (fuel : Nat) : Option (Int × List BusOp) :=
  let tickstart := millis 0
  match sendLoop dev millis buffer size tickstart fuel 0 [BusOp.irq_disable] with
  | none => none
  | some (result, tr) => some (result, tr ++ [BusOp.irq_enable])

/-- Result of the byte-read loop of `HCI_TL_SPI_Receive`. -/
structure RecvLoop where
  /-- the 8-bit loop counter `len` -/
  len : Nat
  /-- number of `spi_write8` calls made -/
  reads : Nat
  /-- the caller's buffer -/
  buffer : Nat → Nat

/-- The loop `for (len = 0; len < byte_count; len++)` of `HCI_TL_SPI_Receive`, entered with the
counter at `len`.  `rx j` is the byte returned by the j-th `spi_write8`; `len` is a `uint8_t`,
so `len++` is taken modulo 256. -/
def recvLoop (rx : Nat → Nat) (byte_count : Nat) :
    Nat → Nat → Nat → (Nat → Nat) → Option RecvLoop
  | 0, _, _, _ => none
  | fuel + 1, len, reads, buffer =>
    if len < byte_count then
      let read_char := u8 (rx reads)
      recvLoop rx byte_count fuel (u8 (len + 1)) (reads + 1) (Function.update buffer len read_char)
    else
      some ⟨len, reads, buffer⟩

/-- Outcome of `HCI_TL_SPI_Receive`: the returned count, the caller's buffer and the bus trace. -/
structure RecvResult where
  ret : Int
  buffer : Nat → Nat
  trace : List BusOp

/-- `int32_t HCI_TL_SPI_Receive(uint8_t *buffer, uint16_t size)`. -/
def HCI_TL_SPI_Receive (header_slave : Header) (rx : Nat → Nat) (buffer : Nat → Nat) (size : Nat)
    (fuel : Nat) : Option RecvResult :=
  let tr := [BusOp.irq_disable, BusOp.cs_reset, BusOp.header_exchange receive_header_master]
  let tail := [BusOp.cs_set, BusOp.irq_enable]
  if u8 header_slave.b0 = 0x02 then
    -- device is ready
    let byte_count := u16 ((u8 header_slave.b4 <<< 8) ||| u8 header_slave.b3)
    if byte_count > 0 then
      -- avoid to read more data than the size of the buffer
      let byte_count := if byte_count > size then size else byte_count
      match recvLoop rx byte_count fuel 0 0 buffer with
      | none => none
      | some r =>
        some ⟨(r.len : Int), r.buffer, tr ++ List.replicate r.reads (BusOp.byte_read 0xff) ++ tail⟩
    else
      some ⟨0, buffer, tr ++ tail⟩
  else
    some ⟨0, buffer, tr ++ tail⟩

/-- Bus operations of one send attempt that does not transmit the payload. -/
def idleAttempt : List BusOp :=
  [BusOp.cs_reset, BusOp.header_exchange send_header_master, BusOp.cs_set]

/-- Bus operations of one send attempt that transmits the payload. -/
def payloadAttempt (buffer : Nat → Nat) (size : Nat) : List BusOp :=
  [BusOp.cs_reset, BusOp.header_exchange send_header_master,
   BusOp.payload_write (payloadBytes buffer size), BusOp.cs_set]

/-! ## Vendor middleware (`bluenrg_def.h`, `hci_const.h`, `bluenrg_aci_const.h`, ...) -/

/-- Constants of the vendor headers that the sources include but that are not part of the
repository.  The driver is embedded for arbitrary values of them. -/
structure Vendor where
  BLE_STATUS_SUCCESS : Nat
  BLE_STATUS_INSUFFICIENT_RESOURCES : Nat
  BLE_STATUS_TIMEOUT : Nat
  BLE_STATUS_ERROR : Nat
  CHAR_PROP_NOTIFY : Nat
  CHAR_PROP_INDICATE : Nat
  AD_TYPE_COMPLETE_LOCAL_NAME : Nat
  HCI_EVENT_PKT : Nat
  EVT_DISCONN_COMPLETE : Nat
  EVT_LE_META_EVENT : Nat
  EVT_LE_CONN_COMPLETE : Nat
  EVT_VENDOR : Nat
  EVT_BLUE_GATT_ATTRIBUTE_MODIFIED : Nat
  EVT_BLUE_GATT_NOTIFICATION : Nat
  EVT_BLUE_ATT_EXCHANGE_MTU_RESP : Nat
  ADV_IND : Nat
  PUBLIC_ADDR : Nat
  NO_WHITE_LIST_USE : Nat
  UUID_TYPE_16 : Nat
  UUID_TYPE_128 : Nat
  PRIMARY_SERVICE : Nat
  ATTR_PERMISSION_NONE : Nat

/-- The values these constants have in the BlueNRG-MS middleware of the vendor; used for the
concrete runs only. -/
def stVendor : Vendor where
  BLE_STATUS_SUCCESS := 0x00
  BLE_STATUS_INSUFFICIENT_RESOURCES := 0x64
  BLE_STATUS_TIMEOUT := 0xFF
  BLE_STATUS_ERROR := 0x47
  CHAR_PROP_NOTIFY := 0x10
  CHAR_PROP_INDICATE := 0x20
  AD_TYPE_COMPLETE_LOCAL_NAME := 0x09
  HCI_EVENT_PKT := 0x04
  EVT_DISCONN_COMPLETE := 0x05
  EVT_LE_META_EVENT := 0x3E
  EVT_LE_CONN_COMPLETE := 0x01
  EVT_VENDOR := 0xFF
  EVT_BLUE_GATT_ATTRIBUTE_MODIFIED := 0x0C01
  EVT_BLUE_GATT_NOTIFICATION := 0x0C0F
  EVT_BLUE_ATT_EXCHANGE_MTU_RESP := 0x0C03
  ADV_IND := 0x00
  PUBLIC_ADDR := 0x00
  NO_WHITE_LIST_USE := 0x00
  UUID_TYPE_16 := 0x01
  UUID_TYPE_128 := 0x02
  PRIMARY_SERVICE := 0x01
  ATTR_PERMISSION_NONE := 0x00

/-- `HCI_DEFAULT_TIMEOUT_MS` of `usr_config/bluenrg_conf.h`. -/
def HCI_DEFAULT_TIMEOUT_MS : Nat := 1000

/-- `ADV_INTERV_MIN` of `usr_config/bluenrg_conf.h`. -/
def ADV_INTERV_MIN : Nat := 0x0030

/-- `ADV_INTERV_MAX` of `usr_config/bluenrg_conf.h`. -/
def ADV_INTERV_MAX : Nat := 0x0640

/-! ## Driver state (`bnrgm0.c`) -/

def MAX_LOCAL_NAME_AD_LEN : Nat := 21
def DISCOVERABLE_MODE_STARTED : Nat := 0x00
def DISCOVERABLE_MODE_STOPPED : Nat := 0x01

/-- The static `ble_state` of `bnrgm0.c`.  The `uint8_t` flags hold 0 for `false` and 1 for
`true`; `local_name_AD` is the memory at the array (indices from 21 on lie outside the array). -/
structure BleState where
  error : Nat
  conn_handle : Nat
  is_connected : Nat
  is_tx_buffer_full : Nat
  discoverable_mode : Nat
  connectable_mode_enabled : Nat
  mtu_exchanged : Nat
  mtu_exchanged_wait : Nat
  local_name_AD : Nat → Nat
  local_name_AD_len : Nat

/-- The initializer of `ble_state`: the state at boot.  Members without an initializer
(`is_tx_buffer_full`, the rest of `local_name_AD`) are zero. -/
def ble_state_init (V : Vendor) : BleState where
  error := V.BLE_STATUS_SUCCESS
  conn_handle := 0
  is_connected := 0
  is_tx_buffer_full := 0
  discoverable_mode := DISCOVERABLE_MODE_STOPPED
  connectable_mode_enabled := 0
  mtu_exchanged := 0
  mtu_exchanged_wait := 0
  local_name_AD := fun i => [V.AD_TYPE_COMPLETE_LOCAL_NAME, 69, 79, 78, 66, 76, 69].getD i 0
  local_name_AD_len := 7

/-- `setError`: `ble_state.error = error` (`ble_error_t` is a `uint8_t`). -/
def setError (error : Nat) (s : BleState) : BleState :=
  { s with error := u8 error }

/-- Calls of the functions the user supplies (weak symbols of the driver), in call order. -/
inductive Callback where
  /-- `__bnrg_on_connect(conn)` -/
  | on_connect (conn : Nat)
  /-- `__bnrg_on_disconnect(conn)` -/
  | on_disconnect (conn : Nat)
  /-- `aci_gatt_attribute_modified_event(conn_handle, attr_handle, data_length, attr_data)` -/
  | attribute_modified (conn_handle attr_handle data_length : Nat) (attr_data : List Nat)
  /-- `aci_gatt_notification_event(conn_handle, attr_handle, attr_len, attr_value)` -/
  | notification (conn_handle attr_handle attr_len : Nat) (attr_value : List Nat)
  deriving DecidableEq, Repr

/-- Commands issued to the radio through the vendor command API, with their arguments. -/
inductive Command where
  | hci_le_set_scan_resp_data (length : Nat) (data : List Nat)
  | aci_gap_set_discoverable (AdvType AdvIntervMin AdvIntervMax OwnAddrType AdvFilterPolicy
      LocalNameLen : Nat) (LocalName : List Nat) (ServiceUUIDLen : Nat)
      (ServiceUUIDList : List Nat) (SlaveConnIntervMin SlaveConnIntervMax : Nat)
  | aci_gap_set_non_discoverable
  | aci_gatt_exchange_configuration (conn_handle : Nat)
  | aci_gatt_update_char_value_ext (servHandle charHandle update_type charLength
      charValOffset charValueLen : Nat) (charValue : List Nat)
  deriving DecidableEq, Repr

/-! ## Event handlers (`bnrgm0.c`) -/

/-- `void hci_le_connection_complete_event(uint8_t peer_addr[6], uint16_t conn_handle)`. -/
def hci_le_connection_complete_event (_peer_addr : List Nat) (conn_handle : Nat) (s : BleState) :
    BleState × List Callback :=
  let conn_handle := u16 conn_handle
  ({ s with is_connected := 1, conn_handle := conn_handle }, [Callback.on_connect conn_handle])

/-- `void hci_disconnection_complete_event(uint8_t status, uint8_t conn_handle, uint8_t reason)`:
the parameter `conn_handle` is a `uint8_t`. -/
def hci_disconnection_complete_event (_status conn_handle _reason : Nat) (s : BleState) :
    BleState × List Callback :=
  let conn_handle := u8 conn_handle
  ({ s with
      is_connected := 0
      discoverable_mode := DISCOVERABLE_MODE_STOPPED
      conn_handle := 0
      mtu_exchanged := 0
      mtu_exchanged_wait := 0 },
   [Callback.on_disconnect conn_handle])

/-- `void aci_att_exchange_mtu_resp_event(uint16_t conn_handle, uint16_t server_rx_mtu)`. -/
def aci_att_exchange_mtu_resp_event (_conn_handle _server_rx_mtu : Nat) (s : BleState) :
    BleState × List Callback :=
  if s.mtu_exchanged_wait = 0 ∨ s.mtu_exchanged_wait = 1 then
    let s := if s.mtu_exchanged_wait = 0 then { s with mtu_exchanged_wait := 2 } else s
    ({ s with mtu_exchanged := 1 }, [])
  else
    (s, [])

/-- `ble_conn_t bnrgm0_getConnHandle(void)`. -/
def bnrgm0_getConnHandle (s : BleState) : Nat :=
  if s.is_connected = 0 then 0 else s.conn_handle

/-- `void bnrgm0_setConnectableMode(bool en)`. -/
def bnrgm0_setConnectableMode (en : Bool) (s : BleState) : BleState :=
  { s with connectable_mode_enabled := if en then 1 else 0 }

/-! ## Event demultiplexer (`bnrgm0_evt_rx.c`) -/

/-- Fields of the vendor struct `evt_disconn_complete` read by the demultiplexer. -/
structure evt_disconn_complete where
  status : Nat
  handle : Nat
  reason : Nat
  deriving DecidableEq, Repr

/-- Fields of the vendor struct `evt_le_connection_complete` read by the demultiplexer. -/
structure evt_le_connection_complete where
  peer_bdaddr : List Nat
  handle : Nat
  deriving DecidableEq, Repr

/-- Fields of the vendor struct `evt_gatt_attr_modified_IDB05A1` read by the demultiplexer. -/
structure evt_gatt_attr_modified_IDB05A1 where
  conn_handle : Nat
  attr_handle : Nat
  data_length : Nat
  att_data : List Nat
  deriving DecidableEq, Repr

/-- Fields of the vendor struct `evt_gatt_attr_notification` read by the demultiplexer. -/
structure evt_gatt_attr_notification where
  conn_handle : Nat
  event_data_length : Nat
  attr_handle : Nat
  attr_value : List Nat
  deriving DecidableEq, Repr

/-- Fields of the vendor struct `evt_att_exchange_mtu_resp` read by the demultiplexer. -/
structure evt_att_exchange_mtu_resp where
  conn_handle : Nat
  server_rx_mtu : Nat
  deriving DecidableEq, Repr

/-- The packet `pData` handed to `bnrgm0_event_rx`.  The byte layout of the payload belongs to
the vendor headers; the packet is held as the two discriminants read directly and, for each
vendor struct through which `bnrgm0_event_rx` reads `event_pckt->data`, the fields read
through it. -/
structure hci_uart_pckt where
  /-- `hci_pckt->type` -/
  type : Nat
  /-- `event_pckt->evt` -/
  evt : Nat
  /-- the payload read as `evt_disconn_complete` -/
  disconn : evt_disconn_complete
  /-- `subevent` of the payload read as `evt_le_meta_event` -/
  subevent : Nat
  /-- `data` of the meta event read as `evt_le_connection_complete` -/
  cc : evt_le_connection_complete
  /-- `ecode` of the payload read as `evt_blue_aci` -/
  ecode : Nat
  /-- `data` of the vendor event read as `evt_gatt_attr_modified_IDB05A1` -/
  attr_modified : evt_gatt_attr_modified_IDB05A1
  /-- `data` of the vendor event read as `evt_gatt_attr_notification` -/
  attr_notification : evt_gatt_attr_notification
  /-- `data` of the vendor event read as `evt_att_exchange_mtu_resp` -/
  mtu_resp : evt_att_exchange_mtu_resp
  deriving DecidableEq, Repr

/-- `void bnrgm0_event_rx(void *pData)`: the new driver state and the user functions called. -/
def bnrgm0_event_rx (V : Vendor) (p : hci_uart_pckt) (s : BleState) : BleState × List Callback :=
  if u8 p.type ≠ V.HCI_EVENT_PKT then (s, [])
  else if u8 p.evt = V.EVT_DISCONN_COMPLETE then
    hci_disconnection_complete_event (u8 p.disconn.status) (u16 p.disconn.handle)
      (u8 p.disconn.reason) s
  else if u8 p.evt = V.EVT_LE_META_EVENT then
    if u8 p.subevent = V.EVT_LE_CONN_COMPLETE then
      hci_le_connection_complete_event p.cc.peer_bdaddr (u16 p.cc.handle) s
    else (s, [])
  else if u8 p.evt = V.EVT_VENDOR then
    if u16 p.ecode = V.EVT_BLUE_GATT_ATTRIBUTE_MODIFIED then
      (s, [Callback.attribute_modified (u16 p.attr_modified.conn_handle)
            (u16 p.attr_modified.attr_handle) (u8 p.attr_modified.data_length)
            p.attr_modified.att_data])
    else if u16 p.ecode = V.EVT_BLUE_GATT_NOTIFICATION then
      (s, [Callback.notification (u16 p.attr_notification.conn_handle)
            (u16 p.attr_notification.attr_handle)
            (u8 (u8 p.attr_notification.event_data_length + 254))
            p.attr_notification.attr_value])
    else if u16 p.ecode = V.EVT_BLUE_ATT_EXCHANGE_MTU_RESP then
      aci_att_exchange_mtu_resp_event (u16 p.mtu_resp.conn_handle)
        (u16 p.mtu_resp.server_rx_mtu) s
    else (s, [])
  else (s, [])

/-- Modelled from the spec: `hci_user_evt_proc` is vendor code outside the repository; it
processes the pending events, handing the packets received so far, oldest first, to the
callback registered with `hci_init`, which is `bnrgm0_event_rx`.  `pending` is the list of
packets pending at this call. -/
def hci_user_evt_proc (V : Vendor) (pending : List hci_uart_pckt) (s : BleState) :
    BleState × List Callback :=
  pending.foldl (fun acc p => ((bnrgm0_event_rx V p acc.1).1, acc.2 ++ (bnrgm0_event_rx V p acc.1).2))
    (s, [])

/-! ## Poll entry point (`bnrgm0.c`) -/

/-- Outcome of one `bnrgm0_process` call. -/
structure ProcessResult where
  state : BleState
  commands : List Command
  callbacks : List Callback

/-- The bytes a command reads from `ble_state.local_name_AD` when given the length `len`. -/
def localNameBytes (s : BleState) (len : Nat) : List Nat :=
  (List.range len).map fun i => u8 (s.local_name_AD i)

/-- `void bnrgm0_process(void)`.  `pending` are the packets pending when it is called and
`ret c` is the status the command API returns for the command `c` during this call. -/
def bnrgm0_process (V : Vendor) (pending : List hci_uart_pckt) (ret : Command → Nat)
    (s : BleState) : ProcessResult :=
  let ev := hci_user_evt_proc V pending s
  let s := ev.1
  if s.is_connected = 0 then
    let r1 : BleState × List Command :=
      if s.discoverable_mode = DISCOVERABLE_MODE_STOPPED ∧ s.connectable_mode_enabled ≠ 0 then
        let c1 := Command.hci_le_set_scan_resp_data 0 []
        let c2 := Command.aci_gap_set_discoverable V.ADV_IND ADV_INTERV_MIN ADV_INTERV_MAX
          V.PUBLIC_ADDR V.NO_WHITE_LIST_USE (u8 s.local_name_AD_len)
          (localNameBytes s (u8 s.local_name_AD_len)) 0 [] 0x0 0x0
        if u8 (ret c2) ≠ V.BLE_STATUS_SUCCESS then (s, [c1, c2])
        else ({ s with discoverable_mode := DISCOVERABLE_MODE_STARTED }, [c1, c2])
      else (s, [])
    let s := r1.1
    let r2 : BleState × List Command :=
      if s.discoverable_mode = DISCOVERABLE_MODE_STARTED ∧ s.connectable_mode_enabled = 0 then
        let c := Command.aci_gap_set_non_discoverable
        if u8 (ret c) ≠ V.BLE_STATUS_SUCCESS then (s, r1.2 ++ [c])
        else ({ s with discoverable_mode := DISCOVERABLE_MODE_STOPPED }, r1.2 ++ [c])
      else (s, r1.2)
    ⟨r2.1, r2.2, ev.2⟩
  else
    if s.mtu_exchanged = 0 ∧ s.mtu_exchanged_wait = 0 then
      ⟨{ s with mtu_exchanged_wait := 1 },
        [Command.aci_gatt_exchange_configuration s.conn_handle], ev.2⟩
    else ⟨s, [], ev.2⟩



/-! ## Flow-controlled update path (`bnrgm0.c`) -/

/-- The struct `ble_char_t` of `bnrgm0_types.h`. -/
structure ble_char_t where
  _service_handle : Nat
  _char_decl_handle : Nat
  _char_val_handle : Nat
  _char_desc_cccd_handle : Nat
  _max_value_len : Nat
  _char_props : Nat
  _is_variable_len : Nat
  deriving DecidableEq, Repr

/-- What surrounds one `bnrgm0_updateCharValue` call: `cmd k` is the status the k-th update
command returns, `millis k` the k-th reading of the millisecond clock (`millis 0` becomes
`tickstart`), `pending j` the packets pending at the j-th `hci_user_evt_proc` call. -/
structure UpdateEnv where
  cmd : Nat → Nat
  millis : Nat → Nat
  pending : Nat → List hci_uart_pckt

/-- Outcome of one `bnrgm0_updateCharValue` call. -/
structure UpdateResult where
  ok : Bool
  state : BleState
  commands : List Command
  callbacks : List Callback

/-- How the loop `while (ble_state.is_tx_buffer_full)` of `bnrgm0_updateCharValue` is left. -/
inductive WaitOutcome where
  /-- through `return false` after `setError(BLE_STATUS_TIMEOUT)` -/
  | timeout (s : BleState) (cbs : List Callback)
  /-- because the flag was found cleared, after `j` calls of `hci_user_evt_proc` in total -/
  | cleared (s : BleState) (j : Nat) (cbs : List Callback)

/-- The loop `while (ble_state.is_tx_buffer_full)` of `bnrgm0_updateCharValue`; `j` counts the
`hci_user_evt_proc` calls (and the clock readings after `tickstart`) made so far. -/
def waitTxBuffer (V : Vendor) (env : UpdateEnv) (tickstart : Nat) :
    Nat → BleState → Nat → List Callback → Option WaitOutcome
  | 0, _, _, _ => none
  | fuel + 1, s, j, cbs =>
    if s.is_tx_buffer_full ≠ 0 then
      let ev := hci_user_evt_proc V (env.pending j) s
      -- Radio is busy (buffer full).
      if u32sub (env.millis (j + 1)) tickstart > 10 * HCI_DEFAULT_TIMEOUT_MS then
        some (WaitOutcome.timeout (setError V.BLE_STATUS_TIMEOUT ev.1) (cbs ++ ev.2))
      else
        waitTxBuffer V env tickstart fuel ev.1 (j + 1) (cbs ++ ev.2)
    else
      some (WaitOutcome.cleared s j cbs)

/-- The tail of `bnrgm0_updateCharValue` after its outer loop. -/
def updateFinish (V : Vendor) (ret : Nat) (s : BleState) (cmds : List Command)
    (cbs : List Callback) : UpdateResult :=
  if ret ≠ V.BLE_STATUS_SUCCESS then ⟨false, setError ret s, cmds, cbs⟩
  else ⟨true, s, cmds, cbs⟩

/-- The loop `while (ret == BLE_STATUS_INSUFFICIENT_RESOURCES)` of `bnrgm0_updateCharValue`
followed by the tail of the function; `k` counts the update commands issued so far. -/
def updateLoop (V : Vendor) (env : UpdateEnv) (tickstart : Nat) (c : Command) :
    Nat → Nat → BleState → Nat → Nat → List Command → List Callback → Option UpdateResult
  | 0, _, _, _, _, _, _ => none
  | fuel + 1, ret, s, k, j, cmds, cbs =>
    if ret = V.BLE_STATUS_INSUFFICIENT_RESOURCES then
      let ret := u8 (env.cmd k)
      let cmds := cmds ++ [c]
      if ret ≠ V.BLE_STATUS_INSUFFICIENT_RESOURCES then
        some (updateFinish V ret s cmds cbs)
      else
        let s := { s with is_tx_buffer_full := 1 }
        match waitTxBuffer V env tickstart fuel s j cbs with
        | none => none
        | some (WaitOutcome.timeout s cbs) => some ⟨false, s, cmds, cbs⟩
        | some (WaitOutcome.cleared s j cbs) =>
          updateLoop V env tickstart c fuel ret s (k + 1) j cmds cbs
    else
      some (updateFinish V ret s cmds cbs)

/-- The `update_type` computed by `bnrgm0_updateCharValue` from the properties byte. -/
def updateType (V : Vendor) (char_props : Nat) : Nat :=
  let update_type := 0x00
  let update_type :=
    if u8 char_props &&& V.CHAR_PROP_NOTIFY ≠ 0x00 then update_type ||| 0x01 else update_type
  let update_type :=
    if u8 char_props &&& V.CHAR_PROP_INDICATE ≠ 0x00 then update_type ||| 0x02 else update_type
  update_type

/-- `bool bnrgm0_updateCharValue(ble_conn_t conn, const ble_char_t *charact,
const uint8_t *value, uint8_t value_len)`. -/
def bnrgm0_updateCharValue (V : Vendor) (env : UpdateEnv) (_conn : Nat) (charact : ble_char_t)
    (value : Nat → Nat) (value_len : Nat) (s : BleState) (fuel : Nat) : Option UpdateResult :=
  let value_len := u8 value_len
  let ret := u8 V.BLE_STATUS_INSUFFICIENT_RESOURCES
  let s := setError V.BLE_STATUS_SUCCESS s
  let update_type := updateType V charact._char_props
  let tickstart := env.millis 0
  let c := Command.aci_gatt_update_char_value_ext (u16 charact._service_handle)
    (u16 charact._char_decl_handle) update_type value_len 0 value_len
    ((List.range value_len).map fun i => u8 (value i))
  updateLoop V env tickstart c fuel ret s 0 0 [] []

/-! ## Runs of the connection state machine -/

/-- What can happen to the driver state: a call of the user, a poll, or an event handed to one
of the three handlers of `bnrgm0.c` by the demultiplexer. -/
inductive Input where
  | setConnectableMode (en : Bool)
  /-- `bnrgm0_process()` with no packet pending; `ret` gives the command results -/
  | poll (ret : Command → Nat)
  | connection_complete (peer_addr : List Nat) (conn_handle : Nat)
  | disconnection_complete (status conn_handle reason : Nat)
  | mtu_resp (conn_handle server_rx_mtu : Nat)

/-- State after one input. -/
def step (V : Vendor) (i : Input) (s : BleState) : BleState :=
  match i with
  | Input.setConnectableMode en => bnrgm0_setConnectableMode en s
  | Input.poll ret => (bnrgm0_process V [] ret s).state
  | Input.connection_complete a h => (hci_le_connection_complete_event a h s).1
  | Input.disconnection_complete st h r => (hci_disconnection_complete_event st h r s).1
  | Input.mtu_resp h m => (aci_att_exchange_mtu_resp_event h m s).1

/-- State after a sequence of inputs, the head of the list first. -/
def run (V : Vendor) (inputs : List Input) (s : BleState) : BleState :=
  inputs.foldl (fun s i => step V i s) s

/-- States the driver can be in after some sequence of inputs from boot. -/
def Reachable (V : Vendor) (s : BleState) : Prop :=
  ∃ inputs : List Input, run V inputs (ble_state_init V) = s

/-- States the driver can be in after some sequence of inputs from boot in which every
MTU-response event arrives while a connection is active (events of a connection lie between
its connection-complete and its disconnection-complete event). -/
inductive ReachableInOrder (V : Vendor) : BleState → Prop where
  | boot : ReachableInOrder V (ble_state_init V)
  | next (s : BleState) (i : Input) :
      ReachableInOrder V s →
      (∀ h m, i = Input.mtu_resp h m → s.is_connected ≠ 0) →
      ReachableInOrder V (step V i s)

/-- A disconnection-complete event packet for the connection handle `h`, as the radio sends it. -/
def disconnPacket (V : Vendor) (h reason : Nat) : hci_uart_pckt where
  type := V.HCI_EVENT_PKT
  evt := V.EVT_DISCONN_COMPLETE
  disconn := ⟨0, h, reason⟩
  subevent := 0
  cc := ⟨[], 0⟩
  ecode := 0
  attr_modified := ⟨0, 0, 0, []⟩
  attr_notification := ⟨0, 0, 0, []⟩
  mtu_resp := ⟨0, 0⟩

/-- The mocked command API of the flow-control scenario: buffer-full for the first `N` update
commands, success afterwards. -/
def bufferFullFirst (V : Vendor) (N : Nat) : Nat → Nat :=
  fun k => if k < N then V.BLE_STATUS_INSUFFICIENT_RESOURCES else V.BLE_STATUS_SUCCESS

/-- A characteristic with the notify property, registered with declaration handle 0x000D. -/
def exampleChar : ble_char_t where
  _service_handle := 0x000C
  _char_decl_handle := 0x000D
  _char_val_handle := 0x000E
  _char_desc_cccd_handle := 0x000F
  _max_value_len := 20
  _char_props := 0x10
  _is_variable_len := 0

/-! ## Further entry points of `bnrgm0.c` -/

/-- `ble_error_t bnrg2_getError(void)`: the last-error code. -/
def bnrg2_getError (s : BleState) : Nat := s.error

/-- `void bnrgm0_setLocalName(const uint8_t *local_name, uint8_t local_name_len)`.  The loop
`for (uint8_t i = 0; i < local_name_len; i++)` runs over `i = 0 .. local_name_len - 1` with
`local_name_len` at most 20 by then. -/
def bnrgm0_setLocalName (V : Vendor) (local_name : Nat → Nat) (local_name_len : Nat)
    (s : BleState) : BleState :=
  let local_name_len := u8 local_name_len
  let local_name_len :=
    if local_name_len > MAX_LOCAL_NAME_AD_LEN - 1 then MAX_LOCAL_NAME_AD_LEN - 1
    else local_name_len
  let s := { s with local_name_AD_len := u8 (local_name_len + 1) }
  let s := { s with
    local_name_AD := Function.update s.local_name_AD 0 (u8 V.AD_TYPE_COMPLETE_LOCAL_NAME) }
  (List.range local_name_len).foldl
    (fun s i => { s with
      local_name_AD := Function.update s.local_name_AD (i + 1) (u8 (local_name i)) }) s

/-! ## Vocabulary of the claims -/

/-- The packets with a discriminant the demultiplexer is specified to recognize: an HCI event
that is disconnection-complete, or LE-meta with sub-discriminant connection-complete, or vendor
with code attribute-modified, notification or MTU-exchange-response. -/
def Recognized (V : Vendor) (p : hci_uart_pckt) : Prop :=
  u8 p.type = V.HCI_EVENT_PKT ∧
    (u8 p.evt = V.EVT_DISCONN_COMPLETE ∨
      (u8 p.evt = V.EVT_LE_META_EVENT ∧ u8 p.subevent = V.EVT_LE_CONN_COMPLETE) ∨
      (u8 p.evt = V.EVT_VENDOR ∧
        (u16 p.ecode = V.EVT_BLUE_GATT_ATTRIBUTE_MODIFIED ∨
          u16 p.ecode = V.EVT_BLUE_GATT_NOTIFICATION ∨
          u16 p.ecode = V.EVT_BLUE_ATT_EXCHANGE_MTU_RESP)))

/-- The set-discoverable command of `bnrgm0_process` in the state `s`: its local-name
arguments are `local_name_AD_len` and the bytes of `local_name_AD`. -/
def setDiscoverable (V : Vendor) (s : BleState) : Command :=
  Command.aci_gap_set_discoverable V.ADV_IND ADV_INTERV_MIN ADV_INTERV_MAX V.PUBLIC_ADDR
    V.NO_WHITE_LIST_USE (u8 s.local_name_AD_len) (localNameBytes s (u8 s.local_name_AD_len))
    0 [] 0x0 0x0

/-- The two commands of the start-advertising branch of `bnrgm0_process` in the state `s`. -/
def startAdvertising (V : Vendor) (s : BleState) : List Command :=
  [Command.hci_le_set_scan_resp_data 0 [], setDiscoverable V s]

/-- Commands issued to the radio by one input: only a poll issues any. -/
def stepCommands (V : Vendor) (i : Input) (s : BleState) : List Command :=
  match i with
  | Input.poll ret => (bnrgm0_process V [] ret s).commands
  | _ => []

/-- Commands issued to the radio over a sequence of inputs, in order. -/
def runCommands (V : Vendor) : List Input → BleState → List Command
  | [], _ => []
  | i :: rest, s => stepCommands V i s ++ runCommands V rest (step V i s)

/-- Inputs that can occur within one connection lifetime: anything but a connection-complete or
a disconnection-complete event. -/
def withinConnection : Input → Prop
  | Input.connection_complete _ _ => False
  | Input.disconnection_complete _ _ _ => False
  | _ => True

/-- A surrounding for `bnrgm0_updateCharValue` with the command results `cmd`, a clock that
advances by 1000 ms per reading and no pending packets. -/
def exampleEnv (cmd : Nat → Nat) : UpdateEnv where
  cmd := cmd
  millis := fun k => 1000 * k
  pending := fun _ => []

/-- The boot state with connectable mode enabled: Idle, discoverability Stopped. -/
def advStopped : BleState :=
  bnrgm0_setConnectableMode true (ble_state_init stVendor)

/-- The state after a successful start of advertising from `advStopped`, with connectable mode
disabled again: Idle, discoverability Started. -/
def advStarted : BleState :=
  bnrgm0_setConnectableMode false (bnrgm0_process stVendor [] (fun _ => 0) advStopped).state

/-- The state after the connection-complete event for the handle 0x0040, from boot:
Connected, MTU negotiation NotStarted. -/
def connected0040 : BleState :=
  (hci_le_connection_complete_event [] 0x0040 (ble_state_init stVendor)).1

/-! ## Characteristics (`bnrgm0.c`, `bnrgm0.h`) -/

/-- `bool bnrgm0_isCCCDNotiEnabled(const uint8_t *cccd_data, uint8_t cccd_data_len)`. -/
def bnrgm0_isCCCDNotiEnabled (cccd_data : Nat → Nat) (cccd_data_len : Nat) : Bool :=
  if u8 cccd_data_len ≠ 2 then false
  else if u8 (cccd_data 0) ≠ 0x01 then false
  else true

/-- `bool bnrgm0_isCCCDIndEnabled(const uint8_t *cccd_data, uint8_t cccd_data_len)`. -/
def bnrgm0_isCCCDIndEnabled (cccd_data : Nat → Nat) (cccd_data_len : Nat) : Bool :=
  if u8 cccd_data_len ≠ 2 then false
  else if u8 (cccd_data 1) ≠ 0x01 then false
  else true

/-- The 16-bit value of a two-byte CCCD buffer, little-endian. -/
def cccdValue (cccd_data : Nat → Nat) : Nat :=
  u8 (cccd_data 0) + 256 * u8 (cccd_data 1)

/-- What "Notification Enabled" means for a CCCD buffer: its length is 2 and the notification
flag (bit 0, value 0x0001) of its value is set. -/
def NotificationEnabled (cccd_data : Nat → Nat) (cccd_data_len : Nat) : Prop :=
  cccd_data_len = 2 ∧ cccdValue cccd_data &&& 0x0001 ≠ 0

/-- What "Indication Enabled" means for a CCCD buffer: its length is 2 and the indication flag
(bit 1, value 0x0002) of its value is set. -/
def IndicationEnabled (cccd_data : Nat → Nat) (cccd_data_len : Nat) : Prop :=
  cccd_data_len = 2 ∧ cccdValue cccd_data &&& 0x0002 ≠ 0

/-! ## Vocabulary of the bus traces -/

/-- Operations that move payload bytes over the bus. -/
def isPayloadOp : BusOp → Bool
  | BusOp.payload_write _ => true
  | BusOp.byte_read _ => true
  | _ => false

/-- One chip-select window: the assertion, one header exchange, payload transfers only, the
release. -/
def Window (w : List BusOp) : Prop :=
  ∃ (header_master : List Nat) (body : List BusOp),
    w = BusOp.cs_reset :: BusOp.header_exchange header_master :: (body ++ [BusOp.cs_set]) ∧
      ∀ op ∈ body, isPayloadOp op = true

/-- A trace that consists of the interrupt being disabled, one or more chip-select windows one
after the other, and the interrupt being enabled. -/
def Framed (tr : List BusOp) : Prop :=
  ∃ ws : List (List BusOp), ws ≠ [] ∧ (∀ w ∈ ws, Window w) ∧
    tr = [BusOp.irq_disable] ++ ws.flatten ++ [BusOp.irq_enable]

/-- Enable state of the data-available interrupt after the operations of a trace, `enabled`
being its state before. -/
def irqAfter (enabled : Bool) : List BusOp → Bool
  | [] => enabled
  | BusOp.irq_disable :: tr => irqAfter false tr
  | BusOp.irq_enable :: tr => irqAfter true tr
  | _ :: tr => irqAfter enabled tr

/-- Whether the data-available interrupt is disabled at every chip-select and bus operation of
a trace, `enabled` being its state before. -/
def irqOffOnBus (enabled : Bool) : List BusOp → Bool
  | [] => true
  | BusOp.irq_disable :: tr => irqOffOnBus false tr
  | BusOp.irq_enable :: tr => irqOffOnBus true tr
  | _ :: tr => !enabled && irqOffOnBus enabled tr

/-- A two-byte CCCD buffer holding `b0`, `b1`. -/
def cccdBuffer (b0 b1 : Nat) : Nat → Nat :=
  fun i => [b0, b1].getD i 0

/-! # Theorems -/

/-! ## Transport framer: lemmas -/

theorem sendAttempt_accepted (hs : Header) (buffer : Nat → Nat) (size : Nat) (tr : List BusOp)
    (h : u8 hs.b0 = 0x02 ∧ size ≤ u8 hs.b1) :
    sendAttempt hs buffer size tr = (0, tr ++ payloadAttempt buffer size) := by
  obtain ⟨h0, h1⟩ := h
  simp [sendAttempt, payloadAttempt, h0, h1]

theorem sendAttempt_rejected (hs : Header) (buffer : Nat → Nat) (size : Nat) (tr : List BusOp)
    (h : ¬ (u8 hs.b0 = 0x02 ∧ size ≤ u8 hs.b1)) :
    (sendAttempt hs buffer size tr).1 < 0 ∧
      (sendAttempt hs buffer size tr).2 = tr ++ idleAttempt := by
  by_cases h0 : u8 hs.b0 = 0x02
  · have h1 : ¬ size ≤ u8 hs.b1 := fun h1 => h ⟨h0, h1⟩
    simp [sendAttempt, idleAttempt, h0, h1]
  · simp [sendAttempt, idleAttempt, h0]

theorem sendAttempt_cases (hs : Header) (buffer : Nat → Nat) (size : Nat) (tr : List BusOp) :
    (sendAttempt hs buffer size tr).1 = 0 ∨ (sendAttempt hs buffer size tr).1 < 0 := by
  by_cases h : u8 hs.b0 = 0x02 ∧ size ≤ u8 hs.b1
  · left; rw [sendAttempt_accepted hs buffer size tr h]
  · right; exact (sendAttempt_rejected hs buffer size tr h).1

/-- The loop of `HCI_TL_SPI_Send` is left only with `result` equal to 0 or to -3. -/
theorem sendLoop_result (dev : Nat → Header) (millis : Nat → Nat) (buffer : Nat → Nat)
    (size tickstart : Nat) :
    ∀ (fuel k : Nat) (tr : List BusOp) (r : Int) (t : List BusOp),
      sendLoop dev millis buffer size tickstart fuel k tr = some (r, t) → r = 0 ∨ r = -3 := by
  intro fuel
  induction fuel with
  | zero => intro k tr r t h; simp [sendLoop] at h
  | succ fuel ih =>
    intro k tr r t h
    simp only [sendLoop] at h
    split_ifs at h with h1 h2
    · simp only [Option.some.injEq, Prod.mk.injEq] at h; right; exact h.1.symm
    · exact ih _ _ _ _ h
    · simp only [Option.some.injEq, Prod.mk.injEq] at h
      rcases sendAttempt_cases (dev k) buffer size tr with h3 | h3
      · left; rw [← h.1]; exact h3
      · exact absurd h3 h2

/-- While the device rejects every attempt (not ready, or capacity too small), the loop of
`HCI_TL_SPI_Send` keeps re-issuing the header and ends with -3 at the first clock reading that
is more than `TIMEOUT_DURATION` after `tickstart`. -/
theorem sendLoop_rejected (dev : Nat → Header) (millis : Nat → Nat) (buffer : Nat → Nat)
    (size tickstart : Nat) :
    ∀ (m fuel k : Nat) (tr : List BusOp),
      (∀ j, j ≤ m → ¬ (u8 (dev (k + j)).b0 = 0x02 ∧ size ≤ u8 (dev (k + j)).b1)) →
      (∀ j, j < m → u32sub (millis (k + j + 1)) tickstart ≤ TIMEOUT_DURATION) →
      u32sub (millis (k + m + 1)) tickstart > TIMEOUT_DURATION →
      m < fuel →
      sendLoop dev millis buffer size tickstart fuel k tr
        = some (-3, tr ++ (List.replicate (m + 1) idleAttempt).flatten) := by
  intro m
  induction m with
  | zero =>
    intro fuel k tr hrej _ hout hfuel
    obtain ⟨f, rfl⟩ : ∃ f, fuel = f + 1 := ⟨fuel - 1, by omega⟩
    have h0 := sendAttempt_rejected (dev k) buffer size tr (by simpa using hrej 0 (le_refl 0))
    have hout' : u32sub (millis (k + 1)) tickstart > TIMEOUT_DURATION := by simpa using hout
    simp [sendLoop, hout', h0.2]
  | succ m ih =>
    intro fuel k tr hrej hin hout hfuel
    obtain ⟨f, rfl⟩ : ∃ f, fuel = f + 1 := ⟨fuel - 1, by omega⟩
    have h0 := sendAttempt_rejected (dev k) buffer size tr (by simpa using hrej 0 (Nat.zero_le _))
    have hin0 : ¬ u32sub (millis (k + 1)) tickstart > TIMEOUT_DURATION := by
      have := hin 0 (Nat.succ_pos m)
      simpa using this
    have hrec := ih f (k + 1) (tr ++ idleAttempt)
      (fun j hj => by
        have := hrej (j + 1) (by omega)
        rwa [show k + (j + 1) = k + 1 + j by omega] at this)
      (fun j hj => by
        have := hin (j + 1) (by omega)
        rwa [show k + (j + 1) + 1 = k + 1 + j + 1 by omega] at this)
      (by rwa [show k + (m + 1) + 1 = k + 1 + m + 1 by omega] at hout)
      (by omega)
    simp only [sendLoop]
    rw [if_neg hin0, if_pos h0.1, h0.2, hrec]
    simp [List.replicate_succ]

/-- While the device rejects every attempt, the loop of `HCI_TL_SPI_Send` cannot end with a
result other than -3. -/
theorem sendLoop_all_rejected (dev : Nat → Header) (millis : Nat → Nat) (buffer : Nat → Nat)
    (size tickstart : Nat)
    (hrej : ∀ j, ¬ (u8 (dev j).b0 = 0x02 ∧ size ≤ u8 (dev j).b1)) :
    ∀ (fuel k : Nat) (tr : List BusOp) (r : Int) (t : List BusOp),
      sendLoop dev millis buffer size tickstart fuel k tr = some (r, t) → r = -3 := by
  intro fuel
  induction fuel with
  | zero => intro k tr r t h; simp [sendLoop] at h
  | succ fuel ih =>
    intro k tr r t h
    simp only [sendLoop] at h
    split_ifs at h with h1 h2
    · simp only [Option.some.injEq, Prod.mk.injEq] at h; exact h.1.symm
    · exact ih _ _ _ _ h
    · exact absurd (sendAttempt_rejected (dev k) buffer size tr (hrej k)).1 h2

/-- Unfolding of `HCI_TL_SPI_Send` on a loop that returns. -/
theorem send_of_loop (dev : Nat → Header) (millis : Nat → Nat) (buffer : Nat → Nat)
    (size fuel : Nat) (r : Int) (t : List BusOp)
    (h : sendLoop dev millis buffer size (millis 0) fuel 0 [BusOp.irq_disable] = some (r, t)) :
    HCI_TL_SPI_Send dev millis buffer size fuel = some (r, t ++ [BusOp.irq_enable]) := by
  simp [HCI_TL_SPI_Send, h]

/-- Whatever `HCI_TL_SPI_Send` returns comes out of its loop. -/
theorem loop_of_send (dev : Nat → Header) (millis : Nat → Nat) (buffer : Nat → Nat)
    (size fuel : Nat) (r : Int) (t : List BusOp)
    (h : HCI_TL_SPI_Send dev millis buffer size fuel = some (r, t)) :
    ∃ t0, sendLoop dev millis buffer size (millis 0) fuel 0 [BusOp.irq_disable] = some (r, t0) := by
  unfold HCI_TL_SPI_Send at h
  cases hl : sendLoop dev millis buffer size (millis 0) fuel 0 [BusOp.irq_disable] with
  | none => simp [hl] at h
  | some x =>
    obtain ⟨r0, t0⟩ := x
    simp only [hl, Option.some.injEq, Prod.mk.injEq] at h
    exact ⟨t0, by rw [h.1]⟩

/-- `HCI_TL_SPI_Send` returns 0 or -3, nothing else. -/
theorem send_result (dev : Nat → Header) (millis : Nat → Nat) (buffer : Nat → Nat)
    (size fuel : Nat) (r : Int) (t : List BusOp)
    (h : HCI_TL_SPI_Send dev millis buffer size fuel = some (r, t)) : r = 0 ∨ r = -3 := by
  obtain ⟨t0, h0⟩ := loop_of_send dev millis buffer size fuel r t h
  exact sendLoop_result dev millis buffer size (millis 0) fuel 0 _ r t0 h0

/-- With a counter of 8 bits and 256 or more bytes to read, the byte-read loop of
`HCI_TL_SPI_Receive` is never left. -/
theorem recvLoop_wide (rx : Nat → Nat) (byte_count : Nat) (hbc : 256 ≤ byte_count) :
    ∀ (fuel len reads : Nat) (buffer : Nat → Nat), len < 256 →
      recvLoop rx byte_count fuel len reads buffer = none := by
  intro fuel
  induction fuel with
  | zero => intro len reads buffer _; rfl
  | succ fuel ih =>
    intro len reads buffer hlen
    have h1 : len < byte_count := by omega
    simp only [recvLoop, if_pos h1]
    exact ih _ _ _ (Nat.mod_lt _ (by decide))

/-- The 16-bit count announced by a header reply: bytes 3 and 4, little-endian. -/
theorem byte_count_le (b3 b4 : Nat) :
    u16 ((u8 b4 <<< 8) ||| u8 b3) = u8 b3 + 256 * u8 b4 := by
  have h3 : u8 b3 < 2 ^ 8 := Nat.mod_lt _ (by decide)
  have h4 : u8 b4 < 256 := Nat.mod_lt _ (by decide)
  rw [Nat.shiftLeft_eq, Nat.mul_comm, ← Nat.mul_add_lt_is_or h3]
  unfold u16
  rw [Nat.mod_eq_of_lt] <;> omega

/-- With at most 255 bytes to read, the byte-read loop of `HCI_TL_SPI_Receive` performs
exactly `byte_count` reads and stores them in order. -/
theorem recvLoop_small (rx : Nat → Nat) (byte_count : Nat) (hbc : byte_count ≤ 255) :
    ∀ (n fuel len reads : Nat) (buffer : Nat → Nat),
      len + n = byte_count → n < fuel →
      ∃ r, recvLoop rx byte_count fuel len reads buffer = some r ∧ r.len = byte_count ∧
        r.reads = reads + n ∧
        ∀ i, r.buffer i
          = if len ≤ i ∧ i < byte_count then u8 (rx (reads + (i - len))) else buffer i := by
  intro n
  induction n with
  | zero =>
    intro fuel len reads buffer hlen hfuel
    obtain ⟨f, rfl⟩ : ∃ f, fuel = f + 1 := ⟨fuel - 1, by omega⟩
    have h1 : ¬ len < byte_count := by omega
    refine ⟨⟨len, reads, buffer⟩, by simp [recvLoop, h1], by simpa using hlen, rfl, ?_⟩
    intro i
    have h2 : ¬ (len ≤ i ∧ i < byte_count) := by omega
    simp [h2]
  | succ n ih =>
    intro fuel len reads buffer hlen hfuel
    obtain ⟨f, rfl⟩ : ∃ f, fuel = f + 1 := ⟨fuel - 1, by omega⟩
    have h1 : len < byte_count := by omega
    have h2 : u8 (len + 1) = len + 1 := Nat.mod_eq_of_lt (by omega)
    obtain ⟨r, hr, hl, hreads, hbuf⟩ := ih f (len + 1) (reads + 1)
      (Function.update buffer len (u8 (rx reads))) (by omega) (by omega)
    refine ⟨r, by simp only [recvLoop, if_pos h1, h2]; exact hr, hl, by omega, ?_⟩
    intro i
    rw [hbuf i]
    by_cases hi : i = len
    · subst hi
      simp [h1]
    · rw [Function.update_noteq hi]
      by_cases h3 : len + 1 ≤ i ∧ i < byte_count
      · have h4 : len ≤ i ∧ i < byte_count := ⟨by omega, h3.2⟩
        rw [if_pos h3, if_pos h4]
        congr 2
        omega
      · have h4 : ¬ (len ≤ i ∧ i < byte_count) := by omega
        rw [if_neg h3, if_neg h4]

/-- For a ready header reply that leaves at most 255 bytes to read, `HCI_TL_SPI_Receive`
reads `min (available, size)` bytes from the bus into the start of the buffer, in order, and
returns that count. -/
theorem receive_small (header_slave : Header) (rx buffer : Nat → Nat) (size fuel : Nat)
    (hready : u8 header_slave.b0 = 0x02)
    (hsmall : min (u8 header_slave.b3 + 256 * u8 header_slave.b4) size ≤ 255)
    (hfuel : min (u8 header_slave.b3 + 256 * u8 header_slave.b4) size < fuel) :
    ∃ r, HCI_TL_SPI_Receive header_slave rx buffer size fuel = some r ∧
      r.ret = (min (u8 header_slave.b3 + 256 * u8 header_slave.b4) size : Nat) ∧
      (∀ i, r.buffer i
        = if i < min (u8 header_slave.b3 + 256 * u8 header_slave.b4) size then u8 (rx i)
          else buffer i) ∧
      r.trace = [BusOp.irq_disable, BusOp.cs_reset,
          BusOp.header_exchange receive_header_master]
        ++ List.replicate (min (u8 header_slave.b3 + 256 * u8 header_slave.b4) size)
            (BusOp.byte_read 0xff)
        ++ [BusOp.cs_set, BusOp.irq_enable] := by
  generalize hav : u8 header_slave.b3 + 256 * u8 header_slave.b4 = avail at hsmall hfuel
  have hbc : u16 ((u8 header_slave.b4 <<< 8) ||| u8 header_slave.b3) = avail := by
    rw [byte_count_le, hav]
  by_cases h0 : avail > 0
  · have hmin : (if avail > size then size else avail) = min avail size := by
      split_ifs with h <;> omega
    obtain ⟨r, hr, hl, hreads, hbuf⟩ := recvLoop_small rx (min avail size) hsmall
      (min avail size) fuel 0 0 buffer (by omega) hfuel
    refine ⟨⟨(r.len : Int), r.buffer,
      [BusOp.irq_disable, BusOp.cs_reset, BusOp.header_exchange receive_header_master]
        ++ List.replicate r.reads (BusOp.byte_read 0xff)
        ++ [BusOp.cs_set, BusOp.irq_enable]⟩, ?_, by simp [hl], ?_, ?_⟩
    · simp only [HCI_TL_SPI_Receive, if_pos hready, hbc, if_pos h0, hmin, hr]
    · intro i
      show r.buffer i = _
      rw [hbuf i]
      simp
    · simp [hreads]
  · have hz : avail = 0 := by omega
    subst hz
    refine ⟨⟨0, buffer, [BusOp.irq_disable, BusOp.cs_reset,
      BusOp.header_exchange receive_header_master, BusOp.cs_set, BusOp.irq_enable]⟩,
      ?_, by simp, by simp, by simp⟩
    simp only [HCI_TL_SPI_Receive, if_pos hready, hbc, if_neg h0]
    simp

/-! ## Transport framer: claims -/

/-- C1, as stated, fails: the device answers every header exchange with the ready sentinel and
the capacity 1, the payload has size 1, and `HCI_TL_SPI_Send` returns -3, after having written
the payload, because the clock reading taken after the attempt is 16 ms after the start. -/
theorem C1_counterexample :
    (1 : Nat) ≤ 1 ∧
    HCI_TL_SPI_Send (fun _ => ⟨0x02, 1, 0, 0, 0⟩) (fun k => if k = 0 then 0 else 16)
        (fun _ => 7) 1 5
      = some (-3, [BusOp.irq_disable, BusOp.cs_reset, BusOp.header_exchange send_header_master,
          BusOp.payload_write [7], BusOp.cs_set, BusOp.irq_enable]) := by
  decide

/-- C1, amended: when the device answers every header exchange with the ready sentinel and the
capacity `c`, `HCI_TL_SPI_Send` returns 0 if and only if `size ≤ c` and the clock reading taken
after the first attempt is at most `TIMEOUT_DURATION` (15 ms) after the start of the call. -/
theorem C1_send_succeeds_iff (dev : Nat → Header) (millis : Nat → Nat) (buffer : Nat → Nat)
    (size c fuel : Nat)
    (hdev : ∀ k, u8 (dev k).b0 = 0x02 ∧ u8 (dev k).b1 = c) :
    (HCI_TL_SPI_Send dev millis buffer size (fuel + 1)).map Prod.fst = some 0 ↔
      (size ≤ c ∧ u32sub (millis 1) (millis 0) ≤ TIMEOUT_DURATION) := by
  by_cases hsc : size ≤ c
  · have hacc := sendAttempt_accepted (dev 0) buffer size [BusOp.irq_disable]
      ⟨(hdev 0).1, by rw [(hdev 0).2]; exact hsc⟩
    by_cases ht : u32sub (millis 1) (millis 0) > TIMEOUT_DURATION
    · have hl : sendLoop dev millis buffer size (millis 0) (fuel + 1) 0 [BusOp.irq_disable]
          = some (-3, [BusOp.irq_disable] ++ payloadAttempt buffer size) := by
        simp only [sendLoop, Nat.zero_add, if_pos ht, hacc]
      rw [send_of_loop _ _ _ _ _ _ _ hl]
      constructor
      · intro h; simp at h
      · intro h; exact absurd ht (Nat.not_lt.mpr h.2)
    · have hl : sendLoop dev millis buffer size (millis 0) (fuel + 1) 0 [BusOp.irq_disable]
          = some (0, [BusOp.irq_disable] ++ payloadAttempt buffer size) := by
        simp only [sendLoop, Nat.zero_add, if_neg ht, hacc]
        simp
      rw [send_of_loop _ _ _ _ _ _ _ hl]
      constructor
      · intro _; exact ⟨hsc, Nat.not_lt.mp ht⟩
      · intro _; rfl
  · constructor
    · intro h
      exfalso
      cases hs : HCI_TL_SPI_Send dev millis buffer size (fuel + 1) with
      | none => simp [hs] at h
      | some x =>
        obtain ⟨r, t⟩ := x
        simp only [hs, Option.map_some', Option.some.injEq] at h
        obtain ⟨t0, h0⟩ := loop_of_send dev millis buffer size (fuel + 1) r t hs
        have h3 := sendLoop_all_rejected dev millis buffer size (millis 0)
          (fun j hj => hsc (by rw [← (hdev j).2]; exact hj.2)) (fuel + 1) 0 _ r t0 h0
        rw [h3] at h
        exact absurd h (by decide)
    · intro h; exact absurd h.1 hsc

/-- C1, amended, at a concrete input: capacity 3, size 3 and a clock that stands still. -/
theorem C1_send_succeeds_iff_witness :
    (HCI_TL_SPI_Send (fun _ => ⟨0x02, 3, 0, 0, 0⟩) (fun _ => 0) (fun i => i) 3 (0 + 1)).map
        Prod.fst = some 0 ↔
      ((3 : Nat) ≤ 3 ∧ u32sub 0 0 ≤ TIMEOUT_DURATION) :=
  C1_send_succeeds_iff (fun _ => ⟨0x02, 3, 0, 0, 0⟩) (fun _ => 0) (fun i => i) 3 3 0
    (fun _ => ⟨rfl, rfl⟩)

/-- C2, as stated, fails: the device is ready and reports the capacity 1 for a payload of size
2; `HCI_TL_SPI_Send` does not return -2 but re-issues the header (two header exchanges here)
and returns -3 when the timeout has elapsed. -/
theorem C2_counterexample :
    HCI_TL_SPI_Send (fun _ => ⟨0x02, 1, 0, 0, 0⟩) (fun k => if k ≤ 1 then 0 else 16)
        (fun _ => 7) 2 5
      = some (-3, [BusOp.irq_disable,
          BusOp.cs_reset, BusOp.header_exchange send_header_master, BusOp.cs_set,
          BusOp.cs_reset, BusOp.header_exchange send_header_master, BusOp.cs_set,
          BusOp.irq_enable]) := by
  decide

/-- C2, amended: `HCI_TL_SPI_Send` never returns -2.  While the device is ready and reports a
capacity smaller than the payload size, every attempt consists of one header exchange without
any payload write and is followed by another attempt, until the first clock reading more than
`TIMEOUT_DURATION` after the start of the call, where the call returns -3: with `n + 1` such
attempts the bus trace is `n + 1` times chip-select, header exchange, release. -/
theorem C2_capacity_too_small (dev : Nat → Header) (millis : Nat → Nat) (buffer : Nat → Nat)
    (size n fuel : Nat)
    (hdev : ∀ k, k ≤ n → u8 (dev k).b0 = 0x02 ∧ u8 (dev k).b1 < size)
    (hin : ∀ k, k < n → u32sub (millis (k + 1)) (millis 0) ≤ TIMEOUT_DURATION)
    (hout : u32sub (millis (n + 1)) (millis 0) > TIMEOUT_DURATION)
    (hfuel : n < fuel) :
    HCI_TL_SPI_Send dev millis buffer size fuel
        = some (-3, [BusOp.irq_disable] ++ (List.replicate (n + 1) idleAttempt).flatten
            ++ [BusOp.irq_enable]) ∧
      ∀ (dev0 : Nat → Header) (millis0 buffer0 : Nat → Nat) (size0 fuel0 : Nat)
        (t : List BusOp), HCI_TL_SPI_Send dev0 millis0 buffer0 size0 fuel0 ≠ some (-2, t) := by
  constructor
  · apply send_of_loop
    apply sendLoop_rejected dev millis buffer size (millis 0) n fuel 0 [BusOp.irq_disable]
    · intro j hj h
      rw [Nat.zero_add] at h
      exact absurd h.2 (Nat.not_le.mpr (hdev j hj).2)
    · intro j hj
      rw [Nat.zero_add]
      exact hin j hj
    · rw [Nat.zero_add]; exact hout
    · exact hfuel
  · intro dev0 millis0 buffer0 size0 fuel0 t h
    rcases send_result dev0 millis0 buffer0 size0 fuel0 _ t h with h1 | h1 <;>
      exact absurd h1 (by decide)

/-- C2, amended, at a concrete input: capacity 1, size 2, timeout at the second clock reading
after the start. -/
theorem C2_capacity_too_small_witness :
    HCI_TL_SPI_Send (fun _ => ⟨0x02, 1, 0, 0, 0⟩) (fun k => if k ≤ 1 then 0 else 16)
        (fun _ => 7) 2 5
        = some (-3, [BusOp.irq_disable] ++ (List.replicate (1 + 1) idleAttempt).flatten
            ++ [BusOp.irq_enable]) ∧
      ∀ (dev0 : Nat → Header) (millis0 buffer0 : Nat → Nat) (size0 fuel0 : Nat)
        (t : List BusOp), HCI_TL_SPI_Send dev0 millis0 buffer0 size0 fuel0 ≠ some (-2, t) :=
  C2_capacity_too_small (fun _ => ⟨0x02, 1, 0, 0, 0⟩) (fun k => if k ≤ 1 then 0 else 16)
    (fun _ => 7) 2 1 5 (fun _ _ => ⟨rfl, Nat.lt_succ_self 1⟩)
    (fun k hk => by obtain rfl : k = 0 := by omega
                    decide)
    (by decide) (by decide)

/-- C3: `HCI_TL_SPI_Send` never returns -1.  While the device answers not-ready, every attempt
(chip-select, header exchange, release) is followed by another one, and the call returns -3 at
the first clock reading that is more than `TIMEOUT_DURATION` (15 ms) after the start of the
call. -/
theorem C3_not_ready_retried_until_timeout (dev : Nat → Header) (millis : Nat → Nat)
    (buffer : Nat → Nat) (size n fuel : Nat)
    (hdev : ∀ k, k ≤ n → u8 (dev k).b0 ≠ 0x02)
    (hin : ∀ k, k < n → u32sub (millis (k + 1)) (millis 0) ≤ TIMEOUT_DURATION)
    (hout : u32sub (millis (n + 1)) (millis 0) > TIMEOUT_DURATION)
    (hfuel : n < fuel) :
    (∀ (dev0 : Nat → Header) (millis0 buffer0 : Nat → Nat) (size0 fuel0 : Nat)
        (t : List BusOp), HCI_TL_SPI_Send dev0 millis0 buffer0 size0 fuel0 ≠ some (-1, t)) ∧
      HCI_TL_SPI_Send dev millis buffer size fuel
        = some (-3, [BusOp.irq_disable] ++ (List.replicate (n + 1) idleAttempt).flatten
            ++ [BusOp.irq_enable]) := by
  constructor
  · intro dev0 millis0 buffer0 size0 fuel0 t h
    rcases send_result dev0 millis0 buffer0 size0 fuel0 _ t h with h1 | h1 <;>
      exact absurd h1 (by decide)
  · apply send_of_loop
    apply sendLoop_rejected dev millis buffer size (millis 0) n fuel 0 [BusOp.irq_disable]
    · intro j hj h
      rw [Nat.zero_add] at h
      exact hdev j hj h.1
    · intro j hj
      rw [Nat.zero_add]
      exact hin j hj
    · rw [Nat.zero_add]; exact hout
    · exact hfuel

/-- C3 at a concrete input: a device that is never ready and a clock that advances by 6 ms per
attempt; the third reading (18 ms) ends the call. -/
theorem C3_not_ready_retried_until_timeout_witness :
    (∀ (dev0 : Nat → Header) (millis0 buffer0 : Nat → Nat) (size0 fuel0 : Nat)
        (t : List BusOp), HCI_TL_SPI_Send dev0 millis0 buffer0 size0 fuel0 ≠ some (-1, t)) ∧
      HCI_TL_SPI_Send (fun _ => ⟨0x00, 0, 0, 0, 0⟩) (fun k => 100 + 6 * k) (fun _ => 7) 4 3
        = some (-3, [BusOp.irq_disable] ++ (List.replicate (2 + 1) idleAttempt).flatten
            ++ [BusOp.irq_enable]) :=
  C3_not_ready_retried_until_timeout (fun _ => ⟨0x00, 0, 0, 0, 0⟩) (fun k => 100 + 6 * k)
    (fun _ => 7) 4 2 3 (fun _ _ => Nat.zero_ne_add_one 1)
    (fun k hk => by
      have hk2 : k = 0 ∨ k = 1 := by omega
      rcases hk2 with rfl | rfl <;> decide)
    (by decide) (by decide)

/-- C4: when byte 0 of the header reply is not 0x02, `HCI_TL_SPI_Receive` returns 0, the bus
sees the header exchange only (no byte is read), and the buffer of the caller is unchanged. -/
theorem C4_receive_not_ready (header_slave : Header) (rx buffer : Nat → Nat) (size fuel : Nat)
    (h : u8 header_slave.b0 ≠ 0x02) :
    ∃ r, HCI_TL_SPI_Receive header_slave rx buffer size fuel = some r ∧ r.ret = 0 ∧
      r.buffer = buffer ∧
      r.trace = [BusOp.irq_disable, BusOp.cs_reset,
        BusOp.header_exchange receive_header_master, BusOp.cs_set, BusOp.irq_enable] := by
  refine ⟨⟨0, buffer, _⟩, ?_, rfl, rfl, rfl⟩
  simp [HCI_TL_SPI_Receive, h]

/-- C4 at a concrete input: header reply starting with 0xFF, which announces 3 bytes. -/
theorem C4_receive_not_ready_witness :
    ∃ r, HCI_TL_SPI_Receive ⟨0xFF, 0, 0, 3, 0⟩ (fun j => j + 10) (fun _ => 0) 8 0 = some r ∧
      r.ret = 0 ∧ r.buffer = (fun _ => 0) ∧
      r.trace = [BusOp.irq_disable, BusOp.cs_reset,
        BusOp.header_exchange receive_header_master, BusOp.cs_set, BusOp.irq_enable] :=
  C4_receive_not_ready ⟨0xFF, 0, 0, 3, 0⟩ (fun j => j + 10) (fun _ => 0) 8 0 (by decide)

/-- C5, failing input: buffer size 256 and the ready header reply 02 00 00 00 01, which
announces 256 bytes.  The call never returns, whatever the fuel: the 8-bit counter `len` wraps
from 255 to 0 and stays below `byte_count = 256`. -/
theorem C5_receive_256_never_returns (rx buffer : Nat → Nat) (fuel : Nat) :
    HCI_TL_SPI_Receive ⟨0x02, 0x00, 0x00, 0x00, 0x01⟩ rx buffer 256 fuel = none := by
  have hl := recvLoop_wide rx 256 (le_refl _) fuel 0 0 buffer (by decide)
  simp [HCI_TL_SPI_Receive, u8, u16, hl]

/-! ## Connection state machine: lemmas -/

theorem evt_proc_nil (V : Vendor) (s : BleState) : hci_user_evt_proc V [] s = (s, []) := rfl

/-- A poll made while no connection is active changes nothing but `discoverable_mode`. -/
theorem process_idle_fields (V : Vendor) (ret : Command → Nat) (s : BleState)
    (h : s.is_connected = 0) :
    (bnrgm0_process V [] ret s).state.is_connected = 0 ∧
      (bnrgm0_process V [] ret s).state.mtu_exchanged = s.mtu_exchanged ∧
      (bnrgm0_process V [] ret s).state.mtu_exchanged_wait = s.mtu_exchanged_wait ∧
      (bnrgm0_process V [] ret s).state.conn_handle = s.conn_handle ∧
      (bnrgm0_process V [] ret s).state.connectable_mode_enabled = s.connectable_mode_enabled := by
  simp only [bnrgm0_process, evt_proc_nil, h, if_true]
  split_ifs <;> simp_all

/-- A poll made while a connection is active changes nothing but `mtu_exchanged_wait`. -/
theorem process_connected_fields (V : Vendor) (ret : Command → Nat) (s : BleState)
    (h : s.is_connected ≠ 0) :
    (bnrgm0_process V [] ret s).state.is_connected = s.is_connected ∧
      (bnrgm0_process V [] ret s).state.discoverable_mode = s.discoverable_mode ∧
      (bnrgm0_process V [] ret s).state.conn_handle = s.conn_handle := by
  simp only [bnrgm0_process, evt_proc_nil, h, if_false]
  split_ifs <;> simp

/-- In a run in which MTU-response events arrive during a connection only, the MTU fields are
zero whenever no connection is active. -/
theorem idle_mtu_not_started (V : Vendor) (s : BleState) (hs : ReachableInOrder V s) :
    s.is_connected = 0 → s.mtu_exchanged = 0 ∧ s.mtu_exchanged_wait = 0 := by
  induction hs with
  | boot => intro _; exact ⟨rfl, rfl⟩
  | next s i _ hord ih =>
    cases i with
    | setConnectableMode en => exact ih
    | poll ret =>
      intro hc
      by_cases h0 : s.is_connected = 0
      · have hf := process_idle_fields V ret s h0
        have := ih h0
        exact ⟨hf.2.1.trans this.1, hf.2.2.1.trans this.2⟩
      · have hf := process_connected_fields V ret s h0
        exact absurd (hf.1.symm.trans hc) h0
    | connection_complete a h =>
      intro hc
      simp [step, hci_le_connection_complete_event] at hc
    | disconnection_complete st h r =>
      intro _
      exact ⟨rfl, rfl⟩
    | mtu_resp h m =>
      intro hc
      have hcon := hord h m rfl
      exfalso
      apply hcon
      simp only [step, aci_att_exchange_mtu_resp_event] at hc
      split_ifs at hc <;> exact hc

/-! ## Connection state machine: claims -/

/-- C6: after `hci_disconnection_complete_event`, whatever the state before, no connection is
recorded (`is_connected` 0, handle 0, `bnrgm0_getConnHandle` 0), discoverability is Stopped and
both MTU fields are 0; and from boot, connection-complete, MTU-response, disconnection-complete
lead back to the boot state. -/
theorem C6_disconnection_resets (V : Vendor) (s : BleState)
    (status conn_handle reason : Nat) (peer_addr : List Nat) (h h1 h2 mtu st r : Nat) :
    ((hci_disconnection_complete_event status conn_handle reason s).1.is_connected = 0 ∧
      (hci_disconnection_complete_event status conn_handle reason s).1.conn_handle = 0 ∧
      bnrgm0_getConnHandle (hci_disconnection_complete_event status conn_handle reason s).1 = 0 ∧
      (hci_disconnection_complete_event status conn_handle reason s).1.discoverable_mode
        = DISCOVERABLE_MODE_STOPPED ∧
      (hci_disconnection_complete_event status conn_handle reason s).1.mtu_exchanged = 0 ∧
      (hci_disconnection_complete_event status conn_handle reason s).1.mtu_exchanged_wait = 0) ∧
    run V [Input.connection_complete peer_addr h, Input.mtu_resp h1 mtu,
        Input.disconnection_complete st h2 r] (ble_state_init V) = ble_state_init V := by
  refine ⟨⟨rfl, rfl, rfl, rfl, rfl, rfl⟩, rfl⟩

/-- C7, as stated, fails: from boot, enabling connectable mode, one poll whose commands
succeed and a connection-complete event lead to a state with a connection active and
discoverability Started. -/
theorem C7_counterexample :
    Reachable stVendor (run stVendor [Input.setConnectableMode true, Input.poll (fun _ => 0),
        Input.connection_complete [] 0x0040] (ble_state_init stVendor)) ∧
      (run stVendor [Input.setConnectableMode true, Input.poll (fun _ => 0),
        Input.connection_complete [] 0x0040] (ble_state_init stVendor)).is_connected = 1 ∧
      (run stVendor [Input.setConnectableMode true, Input.poll (fun _ => 0),
        Input.connection_complete [] 0x0040] (ble_state_init stVendor)).discoverable_mode
        = DISCOVERABLE_MODE_STARTED :=
  ⟨⟨_, rfl⟩, rfl, rfl⟩

/-- C7, amended: in every state reachable from boot, discoverability is Started or Stopped; an
input turns it into Started only if it is a poll made while no connection is active and
connectable mode is enabled; while a connection is active a poll leaves it unchanged; a
connection-complete event leaves it unchanged; a disconnection-complete event makes it
Stopped. -/
theorem C7_discoverability (V : Vendor) :
    (∀ s, Reachable V s → s.discoverable_mode = DISCOVERABLE_MODE_STARTED ∨
        s.discoverable_mode = DISCOVERABLE_MODE_STOPPED) ∧
    (∀ s i, (step V i s).discoverable_mode = DISCOVERABLE_MODE_STARTED →
        s.discoverable_mode ≠ DISCOVERABLE_MODE_STARTED →
        ∃ ret, i = Input.poll ret ∧ s.is_connected = 0 ∧ s.connectable_mode_enabled ≠ 0) ∧
    (∀ s ret, s.is_connected ≠ 0 →
        (step V (Input.poll ret) s).discoverable_mode = s.discoverable_mode) ∧
    (∀ s a h, (step V (Input.connection_complete a h) s).discoverable_mode
        = s.discoverable_mode) ∧
    (∀ s st h r, (step V (Input.disconnection_complete st h r) s).discoverable_mode
        = DISCOVERABLE_MODE_STOPPED) := by
  have hstep : ∀ s i, (step V i s).discoverable_mode = DISCOVERABLE_MODE_STARTED →
      s.discoverable_mode ≠ DISCOVERABLE_MODE_STARTED →
      ∃ ret, i = Input.poll ret ∧ s.is_connected = 0 ∧ s.connectable_mode_enabled ≠ 0 := by
    intro s i h1 h0
    cases i with
    | setConnectableMode en => exact absurd h1 h0
    | poll ret =>
      refine ⟨ret, rfl, ?_⟩
      by_cases hc : s.is_connected = 0
      · refine ⟨hc, ?_⟩
        intro hen
        apply h0
        simp only [step, bnrgm0_process, evt_proc_nil, hc, hen, if_true] at h1
        simp only [ne_eq, not_true_eq_false, and_false, if_false] at h1
        split_ifs at h1 with h2
        · simp [DISCOVERABLE_MODE_STARTED, DISCOVERABLE_MODE_STOPPED] at h1
        · exact h2.1
        · exact h1
      · exact absurd ((process_connected_fields V ret s hc).2.1 ▸ h1) h0
    | connection_complete a h => exact absurd h1 h0
    | disconnection_complete st h r =>
      simp [step, hci_disconnection_complete_event, DISCOVERABLE_MODE_STARTED,
        DISCOVERABLE_MODE_STOPPED] at h1
    | mtu_resp h m =>
      exfalso
      apply h0
      simp only [step, aci_att_exchange_mtu_resp_event] at h1
      split_ifs at h1 <;> exact h1
  refine ⟨?_, hstep, ?_, ?_, ?_⟩
  · have hgen : ∀ (inputs : List Input) (s0 : BleState),
        (s0.discoverable_mode = DISCOVERABLE_MODE_STARTED ∨
          s0.discoverable_mode = DISCOVERABLE_MODE_STOPPED) →
        ((run V inputs s0).discoverable_mode = DISCOVERABLE_MODE_STARTED ∨
          (run V inputs s0).discoverable_mode = DISCOVERABLE_MODE_STOPPED) := by
      intro inputs
      induction inputs with
      | nil => intro s0 h; exact h
      | cons i rest ih =>
        intro s0 h
        apply ih (step V i s0)
        cases i with
        | setConnectableMode en => exact h
        | poll ret =>
          simp only [step, bnrgm0_process, evt_proc_nil]
          split_ifs <;> simp_all
        | connection_complete a h1 => exact h
        | disconnection_complete st h1 r => right; rfl
        | mtu_resp h1 m =>
          simp only [step, aci_att_exchange_mtu_resp_event]
          split_ifs <;> exact h
    rintro s ⟨inputs, rfl⟩
    exact hgen inputs _ (Or.inr rfl)
  · intro s ret hc
    exact (process_connected_fields V ret s hc).2.1
  · intro s a h; rfl
  · intro s st h r; rfl

/-- Why the order of events matters for the connection-complete transition: the handler of the
MTU-response event does not look at `is_connected`, and the connection-complete handler does not
touch the MTU fields.  If an MTU-response event were handled at boot, with no connection active
(an order the state machine of the specification does not have: its MTU-response transition
leaves a Connected state), the connection-complete event for handle 0x0040 would yield
`mtu_exchanged = 1` and `mtu_exchanged_wait = 2`. -/
theorem mtu_resp_outside_connection :
    Reachable stVendor (run stVendor [Input.mtu_resp 0x0040 247] (ble_state_init stVendor)) ∧
      (run stVendor [Input.mtu_resp 0x0040 247] (ble_state_init stVendor)).is_connected = 0 ∧
      (hci_le_connection_complete_event [] 0x0040
        (run stVendor [Input.mtu_resp 0x0040 247] (ble_state_init stVendor))).1.mtu_exchanged
        = 1 ∧
      (hci_le_connection_complete_event [] 0x0040
        (run stVendor [Input.mtu_resp 0x0040 247]
          (ble_state_init stVendor))).1.mtu_exchanged_wait = 2 :=
  ⟨⟨_, rfl⟩, rfl, rfl, rfl⟩

/-- C8: for every Idle state (no connection) reachable from boot by polls and events in the
order of the specification, where an MTU-response event belongs to a connection (it arrives
while the connection is active), and every 16-bit handle `h`: `bnrgm0_getConnHandle` returns 0
while no connection is active, and the connection-complete event for `h` yields a state with a
connection active and both MTU fields 0 (Connected, MTU negotiation NotStarted), in which
`bnrgm0_getConnHandle` returns `h`, and calls the on-connect function exactly once, with `h`. -/
theorem C8_connection_complete (V : Vendor) (s : BleState) (peer_addr : List Nat) (h : Nat)
    (hs : ReachableInOrder V s) (hidle : s.is_connected = 0) (hh : h < 65536) :
    bnrgm0_getConnHandle s = 0 ∧
      (hci_le_connection_complete_event peer_addr h s).1.is_connected = 1 ∧
      (hci_le_connection_complete_event peer_addr h s).1.mtu_exchanged = 0 ∧
      (hci_le_connection_complete_event peer_addr h s).1.mtu_exchanged_wait = 0 ∧
      bnrgm0_getConnHandle (hci_le_connection_complete_event peer_addr h s).1 = h ∧
      (hci_le_connection_complete_event peer_addr h s).2 = [Callback.on_connect h] := by
  have hm := idle_mtu_not_started V s hs hidle
  have hu : u16 h = h := Nat.mod_eq_of_lt hh
  refine ⟨by simp [bnrgm0_getConnHandle, hidle], rfl, hm.1, hm.2, ?_, ?_⟩
  · simp [bnrgm0_getConnHandle, hci_le_connection_complete_event, hu]
  · simp [hci_le_connection_complete_event, hu]

/-- C8 at a concrete input: the Idle state reached from boot by enabling connectable mode and
one successful poll, and the handle 0x0040. -/
theorem C8_connection_complete_witness :
    bnrgm0_getConnHandle (step stVendor (Input.poll (fun _ => 0))
        (step stVendor (Input.setConnectableMode true) (ble_state_init stVendor))) = 0 ∧
      (hci_le_connection_complete_event [] 0x0040 (step stVendor (Input.poll (fun _ => 0))
        (step stVendor (Input.setConnectableMode true)
          (ble_state_init stVendor)))).1.is_connected = 1 ∧
      (hci_le_connection_complete_event [] 0x0040 (step stVendor (Input.poll (fun _ => 0))
        (step stVendor (Input.setConnectableMode true)
          (ble_state_init stVendor)))).1.mtu_exchanged = 0 ∧
      (hci_le_connection_complete_event [] 0x0040 (step stVendor (Input.poll (fun _ => 0))
        (step stVendor (Input.setConnectableMode true)
          (ble_state_init stVendor)))).1.mtu_exchanged_wait = 0 ∧
      bnrgm0_getConnHandle (hci_le_connection_complete_event [] 0x0040
        (step stVendor (Input.poll (fun _ => 0))
          (step stVendor (Input.setConnectableMode true) (ble_state_init stVendor)))).1
        = 0x0040 ∧
      (hci_le_connection_complete_event [] 0x0040 (step stVendor (Input.poll (fun _ => 0))
        (step stVendor (Input.setConnectableMode true) (ble_state_init stVendor)))).2
        = [Callback.on_connect 0x0040] :=
  C8_connection_complete stVendor _ [] 0x0040
    (ReachableInOrder.next _ _
      (ReachableInOrder.next _ _ ReachableInOrder.boot (fun _ _ hi => Input.noConfusion hi))
      (fun _ _ hi => Input.noConfusion hi))
    rfl (by decide)

/-- C9, failing input: the connection with handle 0x0801 is active and the demultiplexer
receives the disconnection-complete packet for 0x0801; the on-disconnect function is called
once, with 0x01.  In general it is called with the handle reduced modulo 256, because the
parameter `conn_handle` of `hci_disconnection_complete_event` is a `uint8_t`. -/
theorem C9_disconnect_handle_truncated :
    bnrgm0_getConnHandle
        (hci_le_connection_complete_event [] 0x0801 (ble_state_init stVendor)).1 = 0x0801 ∧
      (bnrgm0_event_rx stVendor (disconnPacket stVendor 0x0801 0x13)
        (hci_le_connection_complete_event [] 0x0801 (ble_state_init stVendor)).1).2
        = [Callback.on_disconnect 0x01] ∧
      ∀ (st h r : Nat) (s : BleState),
        (hci_disconnection_complete_event st h r s).2 = [Callback.on_disconnect (h % 256)] :=
  ⟨rfl, rfl, fun _ _ _ _ => rfl⟩

/-! ## Flow-controlled update path -/

/-- No event handed to `bnrgm0_event_rx` changes `is_tx_buffer_full`. -/
theorem event_rx_tx_buffer_full (V : Vendor) (p : hci_uart_pckt) (s : BleState) :
    (bnrgm0_event_rx V p s).1.is_tx_buffer_full = s.is_tx_buffer_full := by
  simp only [bnrgm0_event_rx, hci_disconnection_complete_event,
    hci_le_connection_complete_event, aci_att_exchange_mtu_resp_event]
  split_ifs <;> rfl

/-- Processing pending events does not change `is_tx_buffer_full`. -/
theorem evt_proc_tx_buffer_full (V : Vendor) (pending : List hci_uart_pckt) :
    ∀ (s : BleState) (cbs : List Callback),
      (pending.foldl (fun acc p =>
        ((bnrgm0_event_rx V p acc.1).1, acc.2 ++ (bnrgm0_event_rx V p acc.1).2))
        (s, cbs)).1.is_tx_buffer_full = s.is_tx_buffer_full := by
  induction pending with
  | nil => intro s cbs; rfl
  | cons p rest ih =>
    intro s cbs
    rw [List.foldl_cons, ih, event_rx_tx_buffer_full]

/-- Once `is_tx_buffer_full` is set, the wait loop of `bnrgm0_updateCharValue` is not left as
long as the clock readings stay within the timeout. -/
theorem waitTxBuffer_stuck (V : Vendor) (env : UpdateEnv) (tickstart : Nat)
    (hin : ∀ j, u32sub (env.millis (j + 1)) tickstart ≤ 10 * HCI_DEFAULT_TIMEOUT_MS) :
    ∀ (fuel : Nat) (s : BleState) (j : Nat) (cbs : List Callback),
      s.is_tx_buffer_full ≠ 0 → waitTxBuffer V env tickstart fuel s j cbs = none := by
  intro fuel
  induction fuel with
  | zero => intro s j cbs _; rfl
  | succ fuel ih =>
    intro s j cbs hs
    simp only [waitTxBuffer, if_pos hs, if_neg (Nat.not_lt.mpr (hin j))]
    apply ih
    rw [hci_user_evt_proc, evt_proc_tx_buffer_full]
    exact hs

/-- Once `is_tx_buffer_full` is set, the wait loop of `bnrgm0_updateCharValue` is left at the
first clock reading beyond the timeout, through `return false` with `BLE_STATUS_TIMEOUT`. -/
theorem waitTxBuffer_timeout (V : Vendor) (env : UpdateEnv) (tickstart : Nat) :
    ∀ (m fuel : Nat) (s : BleState) (j : Nat) (cbs : List Callback),
      s.is_tx_buffer_full ≠ 0 →
      (∀ i, i < m → u32sub (env.millis (j + i + 1)) tickstart ≤ 10 * HCI_DEFAULT_TIMEOUT_MS) →
      u32sub (env.millis (j + m + 1)) tickstart > 10 * HCI_DEFAULT_TIMEOUT_MS →
      m < fuel →
      ∃ s1 cbs1, waitTxBuffer V env tickstart fuel s j cbs = some (WaitOutcome.timeout s1 cbs1) ∧
        s1.error = u8 V.BLE_STATUS_TIMEOUT := by
  intro m
  induction m with
  | zero =>
    intro fuel s j cbs hs _ hout hfuel
    obtain ⟨f, rfl⟩ : ∃ f, fuel = f + 1 := ⟨fuel - 1, by omega⟩
    have hout1 : u32sub (env.millis (j + 1)) tickstart > 10 * HCI_DEFAULT_TIMEOUT_MS := by
      simpa using hout
    simp only [waitTxBuffer, if_pos hs, if_pos hout1]
    exact ⟨_, _, rfl, rfl⟩
  | succ m ih =>
    intro fuel s j cbs hs hin hout hfuel
    obtain ⟨f, rfl⟩ : ∃ f, fuel = f + 1 := ⟨fuel - 1, by omega⟩
    have hin0 : ¬ u32sub (env.millis (j + 1)) tickstart > 10 * HCI_DEFAULT_TIMEOUT_MS := by
      have := hin 0 (Nat.succ_pos m)
      simpa using this
    simp only [waitTxBuffer, if_pos hs, if_neg hin0]
    apply ih
    · rw [hci_user_evt_proc, evt_proc_tx_buffer_full]
      exact hs
    · intro i hi
      have := hin (i + 1) (by omega)
      rwa [show j + (i + 1) + 1 = j + 1 + i + 1 by omega] at this
    · rwa [show j + (m + 1) + 1 = j + 1 + m + 1 by omega] at hout
    · omega

/-- The update command that `bnrgm0_updateCharValue` issues. -/
theorem updateLoop_buffer_full (V : Vendor) (env : UpdateEnv) (tickstart : Nat) (c : Command)
    (fuel ret : Nat) (s : BleState) (k j : Nat) (cmds : List Command) (cbs : List Callback)
    (hret : ret = V.BLE_STATUS_INSUFFICIENT_RESOURCES)
    (hcmd : u8 (env.cmd k) = V.BLE_STATUS_INSUFFICIENT_RESOURCES) :
    updateLoop V env tickstart c (fuel + 1) ret s k j cmds cbs =
      match waitTxBuffer V env tickstart fuel { s with is_tx_buffer_full := 1 } j cbs with
      | none => none
      | some (WaitOutcome.timeout s cbs) => some ⟨false, s, cmds ++ [c], cbs⟩
      | some (WaitOutcome.cleared s j cbs) =>
        updateLoop V env tickstart c fuel (u8 (env.cmd k)) s (k + 1) j (cmds ++ [c]) cbs := by
  rw [updateLoop, if_pos hret, if_neg (not_not.mpr hcmd)]

/-- After a first update command that reports buffer-full, `bnrgm0_updateCharValue` does not
return while the clock readings stay within the timeout. -/
theorem update_buffer_full_stuck (V : Vendor) (env : UpdateEnv) (conn : Nat)
    (charact : ble_char_t) (value : Nat → Nat) (value_len : Nat) (s : BleState) (fuel : Nat)
    (hV : u8 V.BLE_STATUS_INSUFFICIENT_RESOURCES = V.BLE_STATUS_INSUFFICIENT_RESOURCES)
    (hcmd : u8 (env.cmd 0) = V.BLE_STATUS_INSUFFICIENT_RESOURCES)
    (hin : ∀ j, u32sub (env.millis (j + 1)) (env.millis 0) ≤ 10 * HCI_DEFAULT_TIMEOUT_MS) :
    bnrgm0_updateCharValue V env conn charact value value_len s fuel = none := by
  cases fuel with
  | zero => rfl
  | succ f =>
    unfold bnrgm0_updateCharValue
    simp only []
    rw [updateLoop_buffer_full V env _ _ f _ _ 0 0 [] [] hV hcmd,
      waitTxBuffer_stuck V env _ hin f _ 0 [] (by simp)]

/-- After a first update command that reports buffer-full, `bnrgm0_updateCharValue` returns
false with last-error `BLE_STATUS_TIMEOUT` at the first clock reading beyond the timeout,
having issued that one command only. -/
theorem update_buffer_full_timeout (V : Vendor) (env : UpdateEnv) (conn : Nat)
    (charact : ble_char_t) (value : Nat → Nat) (value_len : Nat) (s : BleState) (m fuel : Nat)
    (hV : u8 V.BLE_STATUS_INSUFFICIENT_RESOURCES = V.BLE_STATUS_INSUFFICIENT_RESOURCES)
    (hcmd : u8 (env.cmd 0) = V.BLE_STATUS_INSUFFICIENT_RESOURCES)
    (hin : ∀ i, i < m → u32sub (env.millis (i + 1)) (env.millis 0) ≤ 10 * HCI_DEFAULT_TIMEOUT_MS)
    (hout : u32sub (env.millis (m + 1)) (env.millis 0) > 10 * HCI_DEFAULT_TIMEOUT_MS)
    (hfuel : m + 1 < fuel) :
    ∃ r, bnrgm0_updateCharValue V env conn charact value value_len s fuel = some r ∧
      r.ok = false ∧ r.state.error = u8 V.BLE_STATUS_TIMEOUT ∧
      r.commands = [Command.aci_gatt_update_char_value_ext (u16 charact._service_handle)
        (u16 charact._char_decl_handle) (updateType V charact._char_props) (u8 value_len) 0
        (u8 value_len) ((List.range (u8 value_len)).map fun i => u8 (value i))] := by
  obtain ⟨f, rfl⟩ : ∃ f, fuel = f + 1 := ⟨fuel - 1, by omega⟩
  obtain ⟨s1, cbs1, hw, he⟩ := waitTxBuffer_timeout V env (env.millis 0) m f
    { setError V.BLE_STATUS_SUCCESS s with is_tx_buffer_full := 1 } 0 [] (by simp)
    (fun i hi => by rw [Nat.zero_add]; exact hin i hi)
    (by rw [Nat.zero_add]; exact hout) (by omega)
  refine ⟨⟨false, s1, _, cbs1⟩, ?_, rfl, he, rfl⟩
  unfold bnrgm0_updateCharValue
  simp only []
  rw [updateLoop_buffer_full V env _ _ f _ _ 0 0 [] [] hV hcmd, hw]
  rfl

/-- C10, failing input (N = 1): the command API reports buffer-full for the first update
command and would report success afterwards.  With a clock that stays within the timeout
budget the call never returns, whatever events are pending; with a clock that advances by
1000 ms per reading it returns false with last-error `BLE_STATUS_TIMEOUT`, and only one update
command was issued: no event makes `bnrgm0_event_rx` clear `is_tx_buffer_full`. -/
theorem C10_buffer_full_once (pending : Nat → List hci_uart_pckt) (fuel : Nat) :
    bnrgm0_updateCharValue stVendor ⟨bufferFullFirst stVendor 1, fun _ => 0, pending⟩ 0x0801
        exampleChar (fun _ => 0xAB) 3
        (hci_le_connection_complete_event [] 0x0801 (ble_state_init stVendor)).1 fuel = none ∧
      ∃ r, bnrgm0_updateCharValue stVendor ⟨bufferFullFirst stVendor 1, fun k => 1000 * k,
          pending⟩ 0x0801 exampleChar (fun _ => 0xAB) 3
          (hci_le_connection_complete_event [] 0x0801 (ble_state_init stVendor)).1 12 = some r ∧
        r.ok = false ∧ r.state.error = stVendor.BLE_STATUS_TIMEOUT ∧
        r.commands = [Command.aci_gatt_update_char_value_ext 0x000C 0x000D 0x01 3 0 3
          [0xAB, 0xAB, 0xAB]] := by
  constructor
  · exact update_buffer_full_stuck stVendor _ _ _ _ _ _ _ rfl rfl
      (fun _ => by
        show u32sub 0 0 ≤ 10 * HCI_DEFAULT_TIMEOUT_MS
        decide)
  · exact update_buffer_full_timeout stVendor _ _ _ _ _ _ 10 12 rfl rfl
      (fun i hi => by
        show u32sub (1000 * (i + 1)) (1000 * 0) ≤ 10 * HCI_DEFAULT_TIMEOUT_MS
        interval_cases i <;> decide)
      (by
        show u32sub (1000 * (10 + 1)) (1000 * 0) > 10 * HCI_DEFAULT_TIMEOUT_MS
        decide)
      (by decide)

/-! ## Flow-controlled update path: outcomes of a call -/

theorem u8_idem (x : Nat) : u8 (u8 x) = u8 x := Nat.mod_mod _ _

/-- No event handed to `bnrgm0_event_rx` changes the last-error code. -/
theorem event_rx_error (V : Vendor) (p : hci_uart_pckt) (s : BleState) :
    (bnrgm0_event_rx V p s).1.error = s.error := by
  simp only [bnrgm0_event_rx, hci_disconnection_complete_event,
    hci_le_connection_complete_event, aci_att_exchange_mtu_resp_event]
  split_ifs <;> rfl

/-- With `is_tx_buffer_full` set, the wait loop of `bnrgm0_updateCharValue` can be left through
the timeout only. -/
theorem waitTxBuffer_outcome (V : Vendor) (env : UpdateEnv) (tickstart : Nat) :
    ∀ (fuel : Nat) (s : BleState) (j : Nat) (cbs : List Callback) (o : WaitOutcome),
      s.is_tx_buffer_full ≠ 0 → waitTxBuffer V env tickstart fuel s j cbs = some o →
      ∃ s1 cbs1, o = WaitOutcome.timeout s1 cbs1 ∧ s1.error = u8 V.BLE_STATUS_TIMEOUT := by
  intro fuel
  induction fuel with
  | zero => intro s j cbs o _ h; simp [waitTxBuffer] at h
  | succ fuel ih =>
    intro s j cbs o hs h
    simp only [waitTxBuffer, if_pos hs] at h
    split_ifs at h with ht
    · simp only [Option.some.injEq] at h
      exact ⟨_, _, h.symm, rfl⟩
    · refine ih _ _ _ o ?_ h
      rw [hci_user_evt_proc, evt_proc_tx_buffer_full]
      exact hs

/-- The update command that `bnrgm0_updateCharValue` hands to the command API. -/
theorem update_outcomes (V : Vendor) (env : UpdateEnv) (conn : Nat) (charact : ble_char_t)
    (value : Nat → Nat) (value_len : Nat) (s : BleState) (fuel : Nat) (r : UpdateResult)
    (hI : V.BLE_STATUS_INSUFFICIENT_RESOURCES < 256)
    (h : bnrgm0_updateCharValue V env conn charact value value_len s fuel = some r) :
    r.commands = [Command.aci_gatt_update_char_value_ext (u16 charact._service_handle)
        (u16 charact._char_decl_handle) (updateType V charact._char_props) (u8 value_len) 0
        (u8 value_len) ((List.range (u8 value_len)).map fun i => u8 (value i))] ∧
      ((u8 (env.cmd 0) = V.BLE_STATUS_SUCCESS ∧ r.ok = true ∧
          r.state.error = u8 V.BLE_STATUS_SUCCESS) ∨
        (u8 (env.cmd 0) ≠ V.BLE_STATUS_SUCCESS ∧
          u8 (env.cmd 0) ≠ V.BLE_STATUS_INSUFFICIENT_RESOURCES ∧ r.ok = false ∧
          r.state.error = u8 (env.cmd 0)) ∨
        (u8 (env.cmd 0) ≠ V.BLE_STATUS_SUCCESS ∧
          u8 (env.cmd 0) = V.BLE_STATUS_INSUFFICIENT_RESOURCES ∧ r.ok = false ∧
          r.state.error = u8 V.BLE_STATUS_TIMEOUT) ∨
        (u8 (env.cmd 0) = V.BLE_STATUS_SUCCESS ∧
          u8 (env.cmd 0) = V.BLE_STATUS_INSUFFICIENT_RESOURCES ∧ r.ok = false ∧
          r.state.error = u8 V.BLE_STATUS_TIMEOUT)) := by
  have hV : u8 V.BLE_STATUS_INSUFFICIENT_RESOURCES = V.BLE_STATUS_INSUFFICIENT_RESOURCES :=
    Nat.mod_eq_of_lt hI
  cases fuel with
  | zero => simp [bnrgm0_updateCharValue, updateLoop] at h
  | succ f =>
    unfold bnrgm0_updateCharValue at h
    simp only [] at h
    by_cases hc : u8 (env.cmd 0) = V.BLE_STATUS_INSUFFICIENT_RESOURCES
    · rw [updateLoop_buffer_full V env _ _ f _ _ 0 0 [] [] hV hc] at h
      cases hw : waitTxBuffer V env (env.millis 0) f
          { setError V.BLE_STATUS_SUCCESS s with is_tx_buffer_full := 1 } 0 [] with
      | none => simp [hw] at h
      | some o =>
        obtain ⟨s1, cbs1, rfl, he⟩ := waitTxBuffer_outcome V env (env.millis 0) f _ 0 [] o
          (by simp) hw
        simp only [hw, Option.some.injEq] at h
        subst h
        refine ⟨rfl, ?_⟩
        by_cases hs : u8 (env.cmd 0) = V.BLE_STATUS_SUCCESS
        · exact Or.inr (Or.inr (Or.inr ⟨hs, hc, rfl, he⟩))
        · exact Or.inr (Or.inr (Or.inl ⟨hs, hc, rfl, he⟩))
    · rw [updateLoop, if_pos hV, if_pos hc] at h
      simp only [Option.some.injEq] at h
      subst h
      by_cases hs : u8 (env.cmd 0) = V.BLE_STATUS_SUCCESS
      · refine ⟨by simp [updateFinish, hs], Or.inl ⟨hs, ?_, ?_⟩⟩ <;>
          simp [updateFinish, hs, setError]
      · refine ⟨by simp [updateFinish, hs], Or.inr (Or.inl ⟨hs, hc, ?_, ?_⟩)⟩ <;>
          simp [updateFinish, hs, setError, u8_idem]

/-- A call of `bnrgm0_updateCharValue` whose first update command does not report buffer-full
returns after that command. -/
theorem update_first_status (V : Vendor) (env : UpdateEnv) (conn : Nat) (charact : ble_char_t)
    (value : Nat → Nat) (value_len : Nat) (s : BleState) (fuel : Nat)
    (hI : V.BLE_STATUS_INSUFFICIENT_RESOURCES < 256)
    (hc : u8 (env.cmd 0) ≠ V.BLE_STATUS_INSUFFICIENT_RESOURCES) :
    ∃ r, bnrgm0_updateCharValue V env conn charact value value_len s (fuel + 1) = some r := by
  have hV : u8 V.BLE_STATUS_INSUFFICIENT_RESOURCES = V.BLE_STATUS_INSUFFICIENT_RESOURCES :=
    Nat.mod_eq_of_lt hI
  unfold bnrgm0_updateCharValue
  simp only []
  rw [updateLoop, if_pos hV, if_pos hc]
  exact ⟨_, rfl⟩

/-- The bits of the `update_type` computed from the properties byte. -/
theorem updateType_bits (V : Vendor) (p : Nat) :
    (updateType V p &&& 0x01 ≠ 0 ↔ u8 p &&& V.CHAR_PROP_NOTIFY ≠ 0) ∧
      (updateType V p &&& 0x02 ≠ 0 ↔ u8 p &&& V.CHAR_PROP_INDICATE ≠ 0) ∧
      updateType V p < 4 := by
  unfold updateType
  by_cases h1 : u8 p &&& V.CHAR_PROP_NOTIFY = 0 <;>
    by_cases h2 : u8 p &&& V.CHAR_PROP_INDICATE = 0 <;>
    simp [h1, h2]

/-! ## Flow-controlled update path: claims -/

/-- C11: when the command API reports buffer-full on every attempt, `bnrgm0_updateCharValue`
returns false with last-error `BLE_STATUS_TIMEOUT` at the first clock reading that is more
than `10 * HCI_DEFAULT_TIMEOUT_MS` after `tickstart` (32-bit difference); as long as the
readings stay within that bound it does not return. -/
theorem C11_always_buffer_full (V : Vendor) (env : UpdateEnv) (conn : Nat)
    (charact : ble_char_t) (value : Nat → Nat) (value_len : Nat) (s : BleState) (m fuel : Nat)
    (hI : V.BLE_STATUS_INSUFFICIENT_RESOURCES < 256)
    (hT : V.BLE_STATUS_TIMEOUT < 256)
    (hcmd : ∀ k, u8 (env.cmd k) = V.BLE_STATUS_INSUFFICIENT_RESOURCES)
    (hin : ∀ i, i < m → u32sub (env.millis (i + 1)) (env.millis 0) ≤ 10 * HCI_DEFAULT_TIMEOUT_MS)
    (hout : u32sub (env.millis (m + 1)) (env.millis 0) > 10 * HCI_DEFAULT_TIMEOUT_MS)
    (hfuel : m + 1 < fuel) :
    (∃ r, bnrgm0_updateCharValue V env conn charact value value_len s fuel = some r ∧
        r.ok = false ∧ bnrg2_getError r.state = V.BLE_STATUS_TIMEOUT) ∧
      ∀ (env0 : UpdateEnv) (fuel0 : Nat),
        (∀ k, u8 (env0.cmd k) = V.BLE_STATUS_INSUFFICIENT_RESOURCES) →
        (∀ j, u32sub (env0.millis (j + 1)) (env0.millis 0) ≤ 10 * HCI_DEFAULT_TIMEOUT_MS) →
        bnrgm0_updateCharValue V env0 conn charact value value_len s fuel0 = none := by
  have hV : u8 V.BLE_STATUS_INSUFFICIENT_RESOURCES = V.BLE_STATUS_INSUFFICIENT_RESOURCES :=
    Nat.mod_eq_of_lt hI
  constructor
  · obtain ⟨r, hr, hok, herr, _⟩ := update_buffer_full_timeout V env conn charact value
      value_len s m fuel hV (hcmd 0) hin hout hfuel
    refine ⟨r, hr, hok, ?_⟩
    rw [bnrg2_getError, herr]
    exact Nat.mod_eq_of_lt hT
  · intro env0 fuel0 hcmd0 hin0
    exact update_buffer_full_stuck V env0 conn charact value value_len s fuel0 hV (hcmd0 0) hin0

/-- C11 at a concrete input: buffer-full on every attempt and a clock that advances by 1000 ms
per reading; the eleventh reading (11000 ms) ends the call. -/
theorem C11_always_buffer_full_witness :
    (∃ r, bnrgm0_updateCharValue stVendor (exampleEnv (fun _ => 0x64)) 0x0801 exampleChar
          (fun _ => 0xAB) 3 (ble_state_init stVendor) 12 = some r ∧
        r.ok = false ∧ bnrg2_getError r.state = stVendor.BLE_STATUS_TIMEOUT) ∧
      ∀ (env0 : UpdateEnv) (fuel0 : Nat),
        (∀ k, u8 (env0.cmd k) = stVendor.BLE_STATUS_INSUFFICIENT_RESOURCES) →
        (∀ j, u32sub (env0.millis (j + 1)) (env0.millis 0) ≤ 10 * HCI_DEFAULT_TIMEOUT_MS) →
        bnrgm0_updateCharValue stVendor env0 0x0801 exampleChar (fun _ => 0xAB) 3
          (ble_state_init stVendor) fuel0 = none :=
  C11_always_buffer_full stVendor (exampleEnv (fun _ => 0x64)) 0x0801 exampleChar
    (fun _ => 0xAB) 3 (ble_state_init stVendor) 10 12 (by decide) (by decide) (fun _ => rfl)
    (fun i hi => by
      show u32sub (1000 * (i + 1)) (1000 * 0) ≤ 10 * HCI_DEFAULT_TIMEOUT_MS
      interval_cases i <;> decide)
    (by decide) (by decide)

/-- C12: the status of the first update command decides the call.  On success the call returns
true with last-error `BLE_ERROR_NONE` after that one command; on a status that is neither
success nor buffer-full it returns false after that one command with the status as last-error;
and whatever the call returns, it returns true exactly when the last-error is
`BLE_ERROR_NONE`. -/
theorem C12_first_status (V : Vendor) (env : UpdateEnv) (conn : Nat) (charact : ble_char_t)
    (value : Nat → Nat) (value_len : Nat) (s : BleState)
    (hS : V.BLE_STATUS_SUCCESS < 256)
    (hI : V.BLE_STATUS_INSUFFICIENT_RESOURCES < 256)
    (hIS : V.BLE_STATUS_INSUFFICIENT_RESOURCES ≠ V.BLE_STATUS_SUCCESS)
    (hT : u8 V.BLE_STATUS_TIMEOUT ≠ V.BLE_STATUS_SUCCESS) :
    (u8 (env.cmd 0) = V.BLE_STATUS_SUCCESS → ∀ fuel, ∃ r,
        bnrgm0_updateCharValue V env conn charact value value_len s (fuel + 1) = some r ∧
        r.ok = true ∧ bnrg2_getError r.state = V.BLE_STATUS_SUCCESS ∧ r.commands.length = 1) ∧
      (u8 (env.cmd 0) ≠ V.BLE_STATUS_SUCCESS →
        u8 (env.cmd 0) ≠ V.BLE_STATUS_INSUFFICIENT_RESOURCES → ∀ fuel, ∃ r,
        bnrgm0_updateCharValue V env conn charact value value_len s (fuel + 1) = some r ∧
        r.ok = false ∧ bnrg2_getError r.state = u8 (env.cmd 0) ∧ r.commands.length = 1) ∧
      (∀ fuel r, bnrgm0_updateCharValue V env conn charact value value_len s fuel = some r →
        (r.ok = true ↔ bnrg2_getError r.state = V.BLE_STATUS_SUCCESS)) := by
  have hSu : u8 V.BLE_STATUS_SUCCESS = V.BLE_STATUS_SUCCESS := Nat.mod_eq_of_lt hS
  refine ⟨?_, ?_, ?_⟩
  · intro hs fuel
    have hc : u8 (env.cmd 0) ≠ V.BLE_STATUS_INSUFFICIENT_RESOURCES := by
      rw [hs]; exact fun h => hIS h.symm
    obtain ⟨r, hr⟩ := update_first_status V env conn charact value value_len s fuel hI hc
    obtain ⟨hcmds, hcase⟩ := update_outcomes V env conn charact value value_len s _ r hI hr
    refine ⟨r, hr, ?_, ?_, by rw [hcmds]; rfl⟩
    · rcases hcase with h | h | h | h
      · exact h.2.1
      · exact absurd hs h.1
      · exact absurd hs h.1
      · exact absurd h.2.1 hc
    · rcases hcase with h | h | h | h
      · rw [bnrg2_getError, h.2.2, hSu]
      · exact absurd hs h.1
      · exact absurd hs h.1
      · exact absurd h.2.1 hc
  · intro hs hc fuel
    obtain ⟨r, hr⟩ := update_first_status V env conn charact value value_len s fuel hI hc
    obtain ⟨hcmds, hcase⟩ := update_outcomes V env conn charact value value_len s _ r hI hr
    refine ⟨r, hr, ?_, ?_, by rw [hcmds]; rfl⟩
    · rcases hcase with h | h | h | h
      · exact absurd h.1 hs
      · exact h.2.2.1
      · exact h.2.2.1
      · exact h.2.2.1
    · rcases hcase with h | h | h | h
      · exact absurd h.1 hs
      · exact h.2.2.2
      · exact absurd h.2.1 hc
      · exact absurd h.2.1 hc
  · intro fuel r hr
    obtain ⟨_, hcase⟩ := update_outcomes V env conn charact value value_len s fuel r hI hr
    rw [bnrg2_getError]
    rcases hcase with h | h | h | h
    · rw [h.2.1, h.2.2, hSu]; simp
    · rw [h.2.2.1, h.2.2.2]; simp [h.1]
    · rw [h.2.2.1, h.2.2.2]; simp [hT]
    · rw [h.2.2.1, h.2.2.2]; simp [hT]

/-- C12 at a concrete input: the vendor constants of the BlueNRG-MS middleware and a first
update command that returns 0x41. -/
theorem C12_first_status_witness :
    (u8 ((exampleEnv (fun _ => 0x41)).cmd 0) = stVendor.BLE_STATUS_SUCCESS → ∀ fuel, ∃ r,
        bnrgm0_updateCharValue stVendor (exampleEnv (fun _ => 0x41)) 0x0801 exampleChar
          (fun _ => 0xAB) 3 (ble_state_init stVendor) (fuel + 1) = some r ∧
        r.ok = true ∧ bnrg2_getError r.state = stVendor.BLE_STATUS_SUCCESS ∧
        r.commands.length = 1) ∧
      (u8 ((exampleEnv (fun _ => 0x41)).cmd 0) ≠ stVendor.BLE_STATUS_SUCCESS →
        u8 ((exampleEnv (fun _ => 0x41)).cmd 0) ≠ stVendor.BLE_STATUS_INSUFFICIENT_RESOURCES →
        ∀ fuel, ∃ r,
        bnrgm0_updateCharValue stVendor (exampleEnv (fun _ => 0x41)) 0x0801 exampleChar
          (fun _ => 0xAB) 3 (ble_state_init stVendor) (fuel + 1) = some r ∧
        r.ok = false ∧ bnrg2_getError r.state = u8 ((exampleEnv (fun _ => 0x41)).cmd 0) ∧
        r.commands.length = 1) ∧
      (∀ fuel r, bnrgm0_updateCharValue stVendor (exampleEnv (fun _ => 0x41)) 0x0801
          exampleChar (fun _ => 0xAB) 3 (ble_state_init stVendor) fuel = some r →
        (r.ok = true ↔ bnrg2_getError r.state = stVendor.BLE_STATUS_SUCCESS)) :=
  C12_first_status stVendor (exampleEnv (fun _ => 0x41)) 0x0801 exampleChar (fun _ => 0xAB) 3
    (ble_state_init stVendor) (by decide) (by decide) (by decide) (by decide)

/-- C13: the update command that `bnrgm0_updateCharValue` issues carries the service handle
and the declaration handle of the characteristic, offset 0 and the given value length, and an
update type in which bit 0x01 is set exactly when the properties byte has `CHAR_PROP_NOTIFY`,
bit 0x02 exactly when it has `CHAR_PROP_INDICATE`, and no other bit is set. -/
theorem C13_update_command (V : Vendor) (env : UpdateEnv) (conn : Nat) (charact : ble_char_t)
    (value : Nat → Nat) (value_len : Nat) (s : BleState) (fuel : Nat) (r : UpdateResult)
    (hI : V.BLE_STATUS_INSUFFICIENT_RESOURCES < 256)
    (h : bnrgm0_updateCharValue V env conn charact value value_len s fuel = some r) :
    r.commands = [Command.aci_gatt_update_char_value_ext (u16 charact._service_handle)
        (u16 charact._char_decl_handle) (updateType V charact._char_props) (u8 value_len) 0
        (u8 value_len) ((List.range (u8 value_len)).map fun i => u8 (value i))] ∧
      (updateType V charact._char_props &&& 0x01 ≠ 0 ↔
        u8 charact._char_props &&& V.CHAR_PROP_NOTIFY ≠ 0) ∧
      (updateType V charact._char_props &&& 0x02 ≠ 0 ↔
        u8 charact._char_props &&& V.CHAR_PROP_INDICATE ≠ 0) ∧
      updateType V charact._char_props < 4 :=
  ⟨(update_outcomes V env conn charact value value_len s fuel r hI h).1,
    updateType_bits V charact._char_props⟩

/-- C13 at a concrete input: a characteristic with the notify property (0x10), handles 0x000C
and 0x000D, a value of 3 bytes and a command API that reports success. -/
theorem C13_update_command_witness :
    (⟨true, setError stVendor.BLE_STATUS_SUCCESS (ble_state_init stVendor),
        [Command.aci_gatt_update_char_value_ext 0x000C 0x000D 0x01 3 0 3 [0xAB, 0xAB, 0xAB]],
        []⟩ : UpdateResult).commands
        = [Command.aci_gatt_update_char_value_ext (u16 exampleChar._service_handle)
          (u16 exampleChar._char_decl_handle) (updateType stVendor exampleChar._char_props)
          (u8 3) 0 (u8 3) ((List.range (u8 3)).map fun i => u8 ((fun _ => 0xAB) i))] ∧
      (updateType stVendor exampleChar._char_props &&& 0x01 ≠ 0 ↔
        u8 exampleChar._char_props &&& stVendor.CHAR_PROP_NOTIFY ≠ 0) ∧
      (updateType stVendor exampleChar._char_props &&& 0x02 ≠ 0 ↔
        u8 exampleChar._char_props &&& stVendor.CHAR_PROP_INDICATE ≠ 0) ∧
      updateType stVendor exampleChar._char_props < 4 :=
  C13_update_command stVendor (exampleEnv (fun _ => 0x00)) 0x0801 exampleChar (fun _ => 0xAB) 3
    (ble_state_init stVendor) 1 _ (by decide) rfl

/-! ## Poll entry point: lemmas -/

/-- A poll in Idle with discoverability Stopped and connectable mode enabled. -/
theorem process_start (V : Vendor) (ret : Command → Nat) (s : BleState)
    (hc : s.is_connected = 0) (hd : s.discoverable_mode = DISCOVERABLE_MODE_STOPPED)
    (he : s.connectable_mode_enabled ≠ 0) :
    (bnrgm0_process V [] ret s).commands = startAdvertising V s ∧
      (u8 (ret (setDiscoverable V s)) = V.BLE_STATUS_SUCCESS →
        (bnrgm0_process V [] ret s).state
          = { s with discoverable_mode := DISCOVERABLE_MODE_STARTED }) ∧
      (u8 (ret (setDiscoverable V s)) ≠ V.BLE_STATUS_SUCCESS →
        (bnrgm0_process V [] ret s).state = s) := by
  obtain ⟨e, ch, ic, tf, dm, ce, me, mw, la, ll⟩ := s
  simp only at hc hd he
  subst hc hd
  by_cases hr : u8 (ret (setDiscoverable V ⟨e, ch, 0, tf, DISCOVERABLE_MODE_STOPPED, ce, me,
      mw, la, ll⟩)) = V.BLE_STATUS_SUCCESS
  · have hr1 := hr
    simp only [setDiscoverable, localNameBytes] at hr1
    simp [bnrgm0_process, evt_proc_nil, startAdvertising, setDiscoverable, localNameBytes,
      hr1, he, DISCOVERABLE_MODE_STOPPED, DISCOVERABLE_MODE_STARTED]
  · have hr1 := hr
    simp only [setDiscoverable, localNameBytes] at hr1
    simp [bnrgm0_process, evt_proc_nil, startAdvertising, setDiscoverable, localNameBytes,
      hr1, he, DISCOVERABLE_MODE_STOPPED, DISCOVERABLE_MODE_STARTED]

/-- A poll in Idle with discoverability Started and connectable mode disabled. -/
theorem process_stop (V : Vendor) (ret : Command → Nat) (s : BleState)
    (hc : s.is_connected = 0) (hd : s.discoverable_mode = DISCOVERABLE_MODE_STARTED)
    (he : s.connectable_mode_enabled = 0) :
    (bnrgm0_process V [] ret s).commands = [Command.aci_gap_set_non_discoverable] ∧
      (u8 (ret Command.aci_gap_set_non_discoverable) = V.BLE_STATUS_SUCCESS →
        (bnrgm0_process V [] ret s).state
          = { s with discoverable_mode := DISCOVERABLE_MODE_STOPPED }) ∧
      (u8 (ret Command.aci_gap_set_non_discoverable) ≠ V.BLE_STATUS_SUCCESS →
        (bnrgm0_process V [] ret s).state = s) := by
  obtain ⟨e, ch, ic, tf, dm, ce, me, mw, la, ll⟩ := s
  simp only at hc hd he
  subst hc hd he
  by_cases hr : u8 (ret Command.aci_gap_set_non_discoverable) = V.BLE_STATUS_SUCCESS
  · simp [bnrgm0_process, evt_proc_nil, hr, DISCOVERABLE_MODE_STOPPED,
      DISCOVERABLE_MODE_STARTED]
  · simp [bnrgm0_process, evt_proc_nil, hr, DISCOVERABLE_MODE_STOPPED,
      DISCOVERABLE_MODE_STARTED]

/-- A poll in Idle when discoverability already is what the user asked for. -/
theorem process_settled (V : Vendor) (ret : Command → Nat) (s : BleState)
    (hc : s.is_connected = 0)
    (hm : (s.discoverable_mode = DISCOVERABLE_MODE_STARTED ∧ s.connectable_mode_enabled ≠ 0) ∨
      (s.discoverable_mode = DISCOVERABLE_MODE_STOPPED ∧ s.connectable_mode_enabled = 0)) :
    (bnrgm0_process V [] ret s).commands = [] ∧ (bnrgm0_process V [] ret s).state = s := by
  obtain ⟨e, ch, ic, tf, dm, ce, me, mw, la, ll⟩ := s
  simp only at hc hm
  subst hc
  rcases hm with ⟨hd, he⟩ | ⟨hd, he⟩
  · subst hd
    simp [bnrgm0_process, evt_proc_nil, he, DISCOVERABLE_MODE_STOPPED,
      DISCOVERABLE_MODE_STARTED]
  · subst hd he
    simp [bnrgm0_process, evt_proc_nil, DISCOVERABLE_MODE_STOPPED,
      DISCOVERABLE_MODE_STARTED]

/-- A poll while a connection is active. -/
theorem process_connected (V : Vendor) (ret : Command → Nat) (s : BleState)
    (hc : s.is_connected ≠ 0) :
    (s.mtu_exchanged = 0 → s.mtu_exchanged_wait = 0 →
        (bnrgm0_process V [] ret s).commands
          = [Command.aci_gatt_exchange_configuration s.conn_handle] ∧
        (bnrgm0_process V [] ret s).state = { s with mtu_exchanged_wait := 1 }) ∧
      ((s.mtu_exchanged ≠ 0 ∨ s.mtu_exchanged_wait ≠ 0) →
        (bnrgm0_process V [] ret s).commands = [] ∧ (bnrgm0_process V [] ret s).state = s) := by
  simp only [bnrgm0_process, evt_proc_nil, hc]
  constructor
  · intro h1 h2
    simp [h1, h2]
  · intro h
    have : ¬ (s.mtu_exchanged = 0 ∧ s.mtu_exchanged_wait = 0) := by
      rintro ⟨h1, h2⟩
      rcases h with h | h
      · exact h h1
      · exact h h2
    simp [this]

/-! ## Advertised name buffer: lemmas -/

/-- The bytes stored by the loop of `bnrgm0_setLocalName`. -/
theorem setName_fold_name (local_name : Nat → Nat) :
    ∀ (m : Nat) (s : BleState) (j : Nat),
      ((List.range m).foldl (fun s i => { s with
          local_name_AD := Function.update s.local_name_AD (i + 1) (u8 (local_name i)) })
        s).local_name_AD j
        = if 1 ≤ j ∧ j ≤ m then u8 (local_name (j - 1)) else s.local_name_AD j := by
  intro m
  induction m with
  | zero =>
    intro s j
    have h : ¬ (1 ≤ j ∧ j ≤ 0) := by omega
    rw [if_neg h]
    rfl
  | succ m ih =>
    intro s j
    rw [List.range_succ, List.foldl_append]
    simp only [List.foldl_cons, List.foldl_nil]
    by_cases hj : j = m + 1
    · subst hj
      simp
    · rw [Function.update_noteq hj, ih]
      by_cases h1 : 1 ≤ j ∧ j ≤ m
      · have h2 : 1 ≤ j ∧ j ≤ m + 1 := by omega
        rw [if_pos h1, if_pos h2]
      · have h2 : ¬ (1 ≤ j ∧ j ≤ m + 1) := by omega
        rw [if_neg h1, if_neg h2]

/-- The loop of `bnrgm0_setLocalName` writes to `local_name_AD` only. -/
theorem setName_fold_fields (local_name : Nat → Nat) :
    ∀ (l : List Nat) (s : BleState),
      (l.foldl (fun s i => { s with
          local_name_AD := Function.update s.local_name_AD (i + 1) (u8 (local_name i)) })
        s).error = s.error ∧
      (l.foldl (fun s i => { s with
          local_name_AD := Function.update s.local_name_AD (i + 1) (u8 (local_name i)) })
        s).conn_handle = s.conn_handle ∧
      (l.foldl (fun s i => { s with
          local_name_AD := Function.update s.local_name_AD (i + 1) (u8 (local_name i)) })
        s).is_connected = s.is_connected ∧
      (l.foldl (fun s i => { s with
          local_name_AD := Function.update s.local_name_AD (i + 1) (u8 (local_name i)) })
        s).is_tx_buffer_full = s.is_tx_buffer_full ∧
      (l.foldl (fun s i => { s with
          local_name_AD := Function.update s.local_name_AD (i + 1) (u8 (local_name i)) })
        s).discoverable_mode = s.discoverable_mode ∧
      (l.foldl (fun s i => { s with
          local_name_AD := Function.update s.local_name_AD (i + 1) (u8 (local_name i)) })
        s).connectable_mode_enabled = s.connectable_mode_enabled ∧
      (l.foldl (fun s i => { s with
          local_name_AD := Function.update s.local_name_AD (i + 1) (u8 (local_name i)) })
        s).mtu_exchanged = s.mtu_exchanged ∧
      (l.foldl (fun s i => { s with
          local_name_AD := Function.update s.local_name_AD (i + 1) (u8 (local_name i)) })
        s).mtu_exchanged_wait = s.mtu_exchanged_wait ∧
      (l.foldl (fun s i => { s with
          local_name_AD := Function.update s.local_name_AD (i + 1) (u8 (local_name i)) })
        s).local_name_AD_len = s.local_name_AD_len := by
  intro l
  induction l with
  | nil => intro s; exact ⟨rfl, rfl, rfl, rfl, rfl, rfl, rfl, rfl, rfl⟩
  | cons i rest ih =>
    intro s
    simp only [List.foldl_cons]
    exact ih _

/-- What `bnrgm0_setLocalName` leaves in the state: the length `min (n, 20) + 1`, the type tag
at index 0, the first `min (n, 20)` name bytes behind it, and everything else as before. -/
theorem setLocalName_spec (V : Vendor) (local_name : Nat → Nat) (n : Nat) (s : BleState) :
    (bnrgm0_setLocalName V local_name n s).local_name_AD_len = min (u8 n) 20 + 1 ∧
      (∀ j, (bnrgm0_setLocalName V local_name n s).local_name_AD j
        = if j = 0 then u8 V.AD_TYPE_COMPLETE_LOCAL_NAME
          else if j ≤ min (u8 n) 20 then u8 (local_name (j - 1)) else s.local_name_AD j) ∧
      (bnrgm0_setLocalName V local_name n s).is_connected = s.is_connected ∧
      (bnrgm0_setLocalName V local_name n s).discoverable_mode = s.discoverable_mode ∧
      (bnrgm0_setLocalName V local_name n s).connectable_mode_enabled
        = s.connectable_mode_enabled := by
  have hmin : (if u8 n > MAX_LOCAL_NAME_AD_LEN - 1 then MAX_LOCAL_NAME_AD_LEN - 1 else u8 n)
      = min (u8 n) 20 := by
    simp only [MAX_LOCAL_NAME_AD_LEN]
    split_ifs with h <;> omega
  unfold bnrgm0_setLocalName
  simp only [hmin]
  have hf := setName_fold_fields local_name (List.range (min (u8 n) 20))
    { s with
      local_name_AD_len := u8 (min (u8 n) 20 + 1)
      local_name_AD := Function.update s.local_name_AD 0 (u8 V.AD_TYPE_COMPLETE_LOCAL_NAME) }
  refine ⟨?_, ?_, hf.2.2.1, hf.2.2.2.2.1, hf.2.2.2.2.2.1⟩
  · rw [hf.2.2.2.2.2.2.2.2]
    exact Nat.mod_eq_of_lt (by omega)
  · intro j
    rw [setName_fold_name]
    by_cases hj : j = 0
    · subst hj
      simp
    · rw [if_neg hj]
      by_cases h1 : j ≤ min (u8 n) 20
      · rw [if_pos ⟨by omega, h1⟩, if_pos h1]
      · have h2 : ¬ (1 ≤ j ∧ j ≤ min (u8 n) 20) := fun h => h1 h.2
        rw [if_neg h2, if_neg h1]
        exact Function.update_noteq hj _ _

/-- The local-name payload after `bnrgm0_setLocalName`: the type tag followed by the first
`min (n, 20)` bytes of the name. -/
theorem setLocalName_bytes (V : Vendor) (local_name : Nat → Nat) (n : Nat) (s : BleState) :
    localNameBytes (bnrgm0_setLocalName V local_name n s)
        (u8 (bnrgm0_setLocalName V local_name n s).local_name_AD_len)
      = u8 V.AD_TYPE_COMPLETE_LOCAL_NAME ::
          (List.range (min (u8 n) 20)).map fun i => u8 (local_name i) := by
  obtain ⟨hlen, hname, _⟩ := setLocalName_spec V local_name n s
  have hu : u8 (min (u8 n) 20 + 1) = min (u8 n) 20 + 1 := Nat.mod_eq_of_lt (by omega)
  rw [hlen, hu, localNameBytes, List.range_succ_eq_map, List.map_cons, List.map_map]
  congr 1
  · rw [hname 0]
    simp [u8_idem]
  · apply List.map_congr_left
    intro i hi
    have hi2 : i < min (u8 n) 20 := List.mem_range.mp hi
    simp only [Function.comp]
    rw [hname (i + 1), if_neg (Nat.succ_ne_zero i), if_pos (by omega)]
    simp [u8_idem]

/-! ## Poll entry point: claims -/

/-- C14: in Idle with discoverability Stopped and connectable mode enabled, a poll issues one
set-discoverable command (after the scan-response command) whose local-name arguments are
`local_name_AD_len` and the bytes of `local_name_AD`, and when that command succeeds the state
is Idle with discoverability Started.  After `bnrgm0_setLocalName` the payload is the type tag
followed by the first `min (n, 20)` name bytes; from boot it is the tag followed by "EONBLE"
(7 bytes). -/
theorem C14_start_advertising (V : Vendor) (ret : Command → Nat) (s : BleState)
    (local_name : Nat → Nat) (n : Nat)
    (hc : s.is_connected = 0) (hd : s.discoverable_mode = DISCOVERABLE_MODE_STOPPED)
    (he : s.connectable_mode_enabled ≠ 0) :
    (bnrgm0_process V [] ret s).commands
        = [Command.hci_le_set_scan_resp_data 0 [],
           Command.aci_gap_set_discoverable V.ADV_IND ADV_INTERV_MIN ADV_INTERV_MAX
             V.PUBLIC_ADDR V.NO_WHITE_LIST_USE (u8 s.local_name_AD_len)
             (localNameBytes s (u8 s.local_name_AD_len)) 0 [] 0x0 0x0] ∧
      (u8 (ret (setDiscoverable V s)) = V.BLE_STATUS_SUCCESS →
        (bnrgm0_process V [] ret s).state.is_connected = 0 ∧
        (bnrgm0_process V [] ret s).state.discoverable_mode = DISCOVERABLE_MODE_STARTED) ∧
      (bnrgm0_process V [] ret (bnrgm0_setLocalName V local_name n s)).commands
        = [Command.hci_le_set_scan_resp_data 0 [],
           Command.aci_gap_set_discoverable V.ADV_IND ADV_INTERV_MIN ADV_INTERV_MAX
             V.PUBLIC_ADDR V.NO_WHITE_LIST_USE (min (u8 n) 20 + 1)
             (u8 V.AD_TYPE_COMPLETE_LOCAL_NAME ::
               (List.range (min (u8 n) 20)).map fun i => u8 (local_name i)) 0 [] 0x0 0x0] ∧
      (bnrgm0_process V [] ret (bnrgm0_setConnectableMode true (ble_state_init V))).commands
        = [Command.hci_le_set_scan_resp_data 0 [],
           Command.aci_gap_set_discoverable V.ADV_IND ADV_INTERV_MIN ADV_INTERV_MAX
             V.PUBLIC_ADDR V.NO_WHITE_LIST_USE 7
             [u8 V.AD_TYPE_COMPLETE_LOCAL_NAME, 69, 79, 78, 66, 76, 69] 0 [] 0x0 0x0] := by
  obtain ⟨hcmd, hok, _⟩ := process_start V ret s hc hd he
  refine ⟨hcmd, ?_, ?_, ?_⟩
  · intro hr
    rw [hok hr]
    exact ⟨hc, rfl⟩
  · obtain ⟨hlen, _, h1, h2, h3⟩ := setLocalName_spec V local_name n s
    have hu : u8 (min (u8 n) 20 + 1) = min (u8 n) 20 + 1 := Nat.mod_eq_of_lt (by omega)
    rw [(process_start V ret _ (h1.trans hc) (h2.trans hd) (by rw [h3]; exact he)).1,
      startAdvertising, setDiscoverable, setLocalName_bytes, hlen, hu]
  · rw [(process_start V ret _ rfl rfl (Nat.succ_ne_zero 0)).1]
    rfl

/-- C14 at a concrete input: the boot state with connectable mode enabled, a command API that
reports success, and the name "AB". -/
theorem C14_start_advertising_witness :
    (bnrgm0_process stVendor [] (fun _ => 0)
        (bnrgm0_setConnectableMode true (ble_state_init stVendor))).commands
        = [Command.hci_le_set_scan_resp_data 0 [],
           Command.aci_gap_set_discoverable stVendor.ADV_IND ADV_INTERV_MIN ADV_INTERV_MAX
             stVendor.PUBLIC_ADDR stVendor.NO_WHITE_LIST_USE
             (u8 (bnrgm0_setConnectableMode true (ble_state_init stVendor)).local_name_AD_len)
             (localNameBytes (bnrgm0_setConnectableMode true (ble_state_init stVendor))
               (u8 (bnrgm0_setConnectableMode true
                 (ble_state_init stVendor)).local_name_AD_len)) 0 [] 0x0 0x0] ∧
      (u8 ((fun _ => 0) (setDiscoverable stVendor
          (bnrgm0_setConnectableMode true (ble_state_init stVendor))))
          = stVendor.BLE_STATUS_SUCCESS →
        (bnrgm0_process stVendor [] (fun _ => 0)
          (bnrgm0_setConnectableMode true (ble_state_init stVendor))).state.is_connected = 0 ∧
        (bnrgm0_process stVendor [] (fun _ => 0)
          (bnrgm0_setConnectableMode true (ble_state_init stVendor))).state.discoverable_mode
          = DISCOVERABLE_MODE_STARTED) ∧
      (bnrgm0_process stVendor [] (fun _ => 0) (bnrgm0_setLocalName stVendor (fun i => 65 + i) 2
          (bnrgm0_setConnectableMode true (ble_state_init stVendor)))).commands
        = [Command.hci_le_set_scan_resp_data 0 [],
           Command.aci_gap_set_discoverable stVendor.ADV_IND ADV_INTERV_MIN ADV_INTERV_MAX
             stVendor.PUBLIC_ADDR stVendor.NO_WHITE_LIST_USE (min (u8 2) 20 + 1)
             (u8 stVendor.AD_TYPE_COMPLETE_LOCAL_NAME ::
               (List.range (min (u8 2) 20)).map fun i => u8 ((fun i => 65 + i) i))
             0 [] 0x0 0x0] ∧
      (bnrgm0_process stVendor [] (fun _ => 0)
          (bnrgm0_setConnectableMode true (ble_state_init stVendor))).commands
        = [Command.hci_le_set_scan_resp_data 0 [],
           Command.aci_gap_set_discoverable stVendor.ADV_IND ADV_INTERV_MIN ADV_INTERV_MAX
             stVendor.PUBLIC_ADDR stVendor.NO_WHITE_LIST_USE 7
             [u8 stVendor.AD_TYPE_COMPLETE_LOCAL_NAME, 69, 79, 78, 66, 76, 69] 0 [] 0x0 0x0] :=
  C14_start_advertising stVendor (fun _ => 0)
    (bnrgm0_setConnectableMode true (ble_state_init stVendor)) (fun i => 65 + i) 2
    rfl rfl (by decide)

/-- C15: when the advertising command of a poll fails, the whole state is as before the poll:
after a failed start (state `s`) discoverability is still Stopped, after a failed stop (state
`t`) still Started, and the next poll issues the same commands again, whatever the command
results then. -/
theorem C15_failed_advertising_command (V : Vendor) (ret ret1 : Command → Nat)
    (s t : BleState) (hs : s.is_connected = 0) (ht : t.is_connected = 0) :
    (s.discoverable_mode = DISCOVERABLE_MODE_STOPPED → s.connectable_mode_enabled ≠ 0 →
        u8 (ret (setDiscoverable V s)) ≠ V.BLE_STATUS_SUCCESS →
        (bnrgm0_process V [] ret s).state = s ∧
        (bnrgm0_process V [] ret s).commands
          = [Command.hci_le_set_scan_resp_data 0 [], setDiscoverable V s] ∧
        (bnrgm0_process V [] ret1 (bnrgm0_process V [] ret s).state).commands
          = [Command.hci_le_set_scan_resp_data 0 [], setDiscoverable V s]) ∧
      (t.discoverable_mode = DISCOVERABLE_MODE_STARTED → t.connectable_mode_enabled = 0 →
        u8 (ret Command.aci_gap_set_non_discoverable) ≠ V.BLE_STATUS_SUCCESS →
        (bnrgm0_process V [] ret t).state = t ∧
        (bnrgm0_process V [] ret t).commands = [Command.aci_gap_set_non_discoverable] ∧
        (bnrgm0_process V [] ret1 (bnrgm0_process V [] ret t).state).commands
          = [Command.aci_gap_set_non_discoverable]) := by
  constructor
  · intro hd he hr
    obtain ⟨hcmd, _, hfail⟩ := process_start V ret s hs hd he
    refine ⟨hfail hr, hcmd, ?_⟩
    rw [hfail hr]
    exact (process_start V ret1 s hs hd he).1
  · intro hd he hr
    obtain ⟨hcmd, _, hfail⟩ := process_stop V ret t ht hd he
    refine ⟨hfail hr, hcmd, ?_⟩
    rw [hfail hr]
    exact (process_stop V ret1 t ht hd he).1

/-- C15 at a concrete input: `advStopped`, the boot state with connectable mode enabled, and
`advStarted`, the state after a successful start with connectable mode disabled again; the
command API answers every command of the first poll with the status 0x41. -/
theorem C15_failed_advertising_command_witness :
    (advStopped.discoverable_mode = DISCOVERABLE_MODE_STOPPED →
        advStopped.connectable_mode_enabled ≠ 0 →
        u8 ((fun _ => 0x41) (setDiscoverable stVendor advStopped))
          ≠ stVendor.BLE_STATUS_SUCCESS →
        (bnrgm0_process stVendor [] (fun _ => 0x41) advStopped).state = advStopped ∧
        (bnrgm0_process stVendor [] (fun _ => 0x41) advStopped).commands
          = [Command.hci_le_set_scan_resp_data 0 [], setDiscoverable stVendor advStopped] ∧
        (bnrgm0_process stVendor [] (fun _ => 0x00)
          (bnrgm0_process stVendor [] (fun _ => 0x41) advStopped).state).commands
          = [Command.hci_le_set_scan_resp_data 0 [], setDiscoverable stVendor advStopped]) ∧
      (advStarted.discoverable_mode = DISCOVERABLE_MODE_STARTED →
        advStarted.connectable_mode_enabled = 0 →
        u8 ((fun _ => 0x41) Command.aci_gap_set_non_discoverable)
          ≠ stVendor.BLE_STATUS_SUCCESS →
        (bnrgm0_process stVendor [] (fun _ => 0x41) advStarted).state = advStarted ∧
        (bnrgm0_process stVendor [] (fun _ => 0x41) advStarted).commands
          = [Command.aci_gap_set_non_discoverable] ∧
        (bnrgm0_process stVendor [] (fun _ => 0x00)
          (bnrgm0_process stVendor [] (fun _ => 0x41) advStarted).state).commands
          = [Command.aci_gap_set_non_discoverable]) :=
  C15_failed_advertising_command stVendor (fun _ => 0x41) (fun _ => 0x00)
    advStopped advStarted rfl rfl

/-- C16, as stated, fails: from the boot state with connectable mode enabled, one poll whose
commands all succeed takes discoverability from Stopped to Started and issues two commands,
both answered with success. -/
theorem C16_counterexample :
    advStopped.discoverable_mode = DISCOVERABLE_MODE_STOPPED ∧
      (bnrgm0_process stVendor [] (fun _ => 0) advStopped).state.discoverable_mode
        = DISCOVERABLE_MODE_STARTED ∧
      (bnrgm0_process stVendor [] (fun _ => 0) advStopped).commands
        = [Command.hci_le_set_scan_resp_data 0 [],
           Command.aci_gap_set_discoverable 0x00 0x0030 0x0640 0x00 0x00 7
             [0x09, 69, 79, 78, 66, 76, 69] 0 [] 0x0 0x0] ∧
      ∀ c ∈ (bnrgm0_process stVendor [] (fun _ => 0) advStopped).commands,
        u8 ((fun _ => 0) c) = stVendor.BLE_STATUS_SUCCESS :=
  ⟨rfl, rfl, rfl, fun _ _ => rfl⟩

/-- C16, amended: with no pending events, no connection and discoverability matching the
request of the user, any number of polls issue no command and leave the state unchanged.  A
poll that takes discoverability from Stopped to Started issues the scan-response command
followed by exactly one set-discoverable command, which succeeded; a poll that takes it from
Started to Stopped issues exactly one set-non-discoverable command, which succeeded. -/
theorem C16_poll_idempotence (V : Vendor) :
    (∀ (s : BleState) (rets : List (Command → Nat)), s.is_connected = 0 →
        ((s.discoverable_mode = DISCOVERABLE_MODE_STARTED ∧ s.connectable_mode_enabled ≠ 0) ∨
          (s.discoverable_mode = DISCOVERABLE_MODE_STOPPED ∧ s.connectable_mode_enabled = 0)) →
        run V (rets.map Input.poll) s = s ∧ runCommands V (rets.map Input.poll) s = []) ∧
      (∀ (s : BleState) (ret : Command → Nat),
        s.discoverable_mode = DISCOVERABLE_MODE_STOPPED →
        (bnrgm0_process V [] ret s).state.discoverable_mode = DISCOVERABLE_MODE_STARTED →
        (bnrgm0_process V [] ret s).commands
          = [Command.hci_le_set_scan_resp_data 0 [], setDiscoverable V s] ∧
        u8 (ret (setDiscoverable V s)) = V.BLE_STATUS_SUCCESS) ∧
      (∀ (s : BleState) (ret : Command → Nat),
        s.discoverable_mode = DISCOVERABLE_MODE_STARTED →
        (bnrgm0_process V [] ret s).state.discoverable_mode = DISCOVERABLE_MODE_STOPPED →
        (bnrgm0_process V [] ret s).commands = [Command.aci_gap_set_non_discoverable] ∧
        u8 (ret Command.aci_gap_set_non_discoverable) = V.BLE_STATUS_SUCCESS) := by
  have hne : DISCOVERABLE_MODE_STOPPED ≠ DISCOVERABLE_MODE_STARTED := by decide
  refine ⟨?_, ?_, ?_⟩
  · intro s rets hc hm
    induction rets with
    | nil => exact ⟨rfl, rfl⟩
    | cons ret rest ih =>
      obtain ⟨hcmd, hst⟩ := process_settled V ret s hc hm
      have hstep : step V (Input.poll ret) s = s := hst
      constructor
      · show run V (rest.map Input.poll) (step V (Input.poll ret) s) = s
        rw [hstep]
        exact ih.1
      · show stepCommands V (Input.poll ret) s
            ++ runCommands V (rest.map Input.poll) (step V (Input.poll ret) s) = []
        rw [hstep, ih.2]
        show (bnrgm0_process V [] ret s).commands ++ [] = []
        rw [hcmd]
        rfl
  · intro s ret hd hnew
    by_cases hc : s.is_connected = 0
    · by_cases he : s.connectable_mode_enabled = 0
      · rw [(process_settled V ret s hc (Or.inr ⟨hd, he⟩)).2, hd] at hnew
        exact absurd hnew hne
      · obtain ⟨hcmd, _, hfail⟩ := process_start V ret s hc hd he
        refine ⟨hcmd, ?_⟩
        by_contra hr
        rw [hfail hr, hd] at hnew
        exact absurd hnew hne
    · rw [(process_connected_fields V ret s hc).2.1, hd] at hnew
      exact absurd hnew hne
  · intro s ret hd hnew
    by_cases hc : s.is_connected = 0
    · by_cases he : s.connectable_mode_enabled = 0
      · obtain ⟨hcmd, _, hfail⟩ := process_stop V ret s hc hd he
        refine ⟨hcmd, ?_⟩
        by_contra hr
        rw [hfail hr, hd] at hnew
        exact absurd hnew hne.symm
      · rw [(process_settled V ret s hc (Or.inl ⟨hd, he⟩)).2, hd] at hnew
        exact absurd hnew hne.symm
    · rw [(process_connected_fields V ret s hc).2.1, hd] at hnew
      exact absurd hnew hne.symm

/-! ## MTU negotiation -/

/-- Once MTU negotiation has left NotStarted, nothing within the connection lifetime makes a
poll issue a command. -/
theorem runCommands_mtu_started (V : Vendor) :
    ∀ (inputs : List Input) (s : BleState), s.is_connected ≠ 0 →
      (s.mtu_exchanged ≠ 0 ∨ s.mtu_exchanged_wait ≠ 0) →
      (∀ i ∈ inputs, withinConnection i) → runCommands V inputs s = [] := by
  intro inputs
  induction inputs with
  | nil => intro s _ _ _; rfl
  | cons i rest ih =>
    intro s hc hm hin
    have hrest : ∀ i ∈ rest, withinConnection i := fun i hi => hin i (List.mem_cons_of_mem _ hi)
    have hi := hin i (List.mem_cons_self _ _)
    cases i with
    | setConnectableMode en =>
      show [] ++ runCommands V rest _ = []
      rw [List.nil_append]
      exact ih _ hc hm hrest
    | poll ret =>
      obtain ⟨hcmd, hst⟩ := (process_connected V ret s hc).2 hm
      show (bnrgm0_process V [] ret s).commands
        ++ runCommands V rest (bnrgm0_process V [] ret s).state = []
      rw [hcmd, hst, List.nil_append]
      exact ih _ hc hm hrest
    | connection_complete a h => exact absurd hi (by simp [withinConnection])
    | disconnection_complete st h r => exact absurd hi (by simp [withinConnection])
    | mtu_resp h m =>
      show [] ++ runCommands V rest _ = []
      rw [List.nil_append]
      apply ih _ _ _ hrest
      · simp only [step, aci_att_exchange_mtu_resp_event]
        split_ifs <;> exact hc
      · simp only [step, aci_att_exchange_mtu_resp_event]
        split_ifs <;> simp_all

/-- C17: within one connection lifetime (any inputs but connection-complete and
disconnection-complete), all polls together issue at most one command, and it is the
exchange-MTU command for the active connection handle.  The first poll in Connected/NotStarted
issues it and sets `mtu_exchanged_wait = 1` whatever the command returns; a poll made when
either MTU field is non-zero issues nothing. -/
theorem C17_one_mtu_exchange (V : Vendor) (s : BleState) (inputs : List Input)
    (hc : s.is_connected ≠ 0) (hin : ∀ i ∈ inputs, withinConnection i) :
    (runCommands V inputs s).length ≤ 1 ∧
      (∀ c ∈ runCommands V inputs s,
        c = Command.aci_gatt_exchange_configuration s.conn_handle) ∧
      (∀ ret : Command → Nat, s.mtu_exchanged = 0 → s.mtu_exchanged_wait = 0 →
        (bnrgm0_process V [] ret s).commands
          = [Command.aci_gatt_exchange_configuration s.conn_handle] ∧
        (bnrgm0_process V [] ret s).state.mtu_exchanged = 0 ∧
        (bnrgm0_process V [] ret s).state.mtu_exchanged_wait = 1) ∧
      (∀ ret : Command → Nat, (s.mtu_exchanged ≠ 0 ∨ s.mtu_exchanged_wait ≠ 0) →
        (bnrgm0_process V [] ret s).commands = []) := by
  have hmain : ∀ (inputs : List Input) (s : BleState), s.is_connected ≠ 0 →
      (∀ i ∈ inputs, withinConnection i) →
      runCommands V inputs s = [] ∨
        runCommands V inputs s = [Command.aci_gatt_exchange_configuration s.conn_handle] := by
    intro inputs
    induction inputs with
    | nil => intro s _ _; exact Or.inl rfl
    | cons i rest ih =>
      intro s hc hin
      have hrest : ∀ i ∈ rest, withinConnection i :=
        fun i hi => hin i (List.mem_cons_of_mem _ hi)
      by_cases hm : s.mtu_exchanged = 0 ∧ s.mtu_exchanged_wait = 0
      · have hi := hin i (List.mem_cons_self _ _)
        cases i with
        | setConnectableMode en =>
          show [] ++ runCommands V rest _ = [] ∨ [] ++ runCommands V rest _ = _
          rw [List.nil_append]
          exact ih (bnrgm0_setConnectableMode en s) hc hrest
        | poll ret =>
          obtain ⟨hcmd, hst⟩ := (process_connected V ret s hc).1 hm.1 hm.2
          right
          show (bnrgm0_process V [] ret s).commands
            ++ runCommands V rest (bnrgm0_process V [] ret s).state = _
          rw [hcmd, hst, runCommands_mtu_started V rest { s with mtu_exchanged_wait := 1 } hc
            (Or.inr (Nat.succ_ne_zero 0)) hrest]
          rfl
        | connection_complete a h => exact absurd hi (by simp [withinConnection])
        | disconnection_complete st h r => exact absurd hi (by simp [withinConnection])
        | mtu_resp h m =>
          left
          show [] ++ runCommands V rest _ = []
          rw [List.nil_append]
          apply runCommands_mtu_started V rest _ _ _ hrest
          · simp only [step, aci_att_exchange_mtu_resp_event]
            split_ifs <;> exact hc
          · left
            simp [step, aci_att_exchange_mtu_resp_event, hm.2]
      · left
        apply runCommands_mtu_started V _ s hc _ hin
        by_cases h1 : s.mtu_exchanged = 0
        · exact Or.inr (fun h2 => hm ⟨h1, h2⟩)
        · exact Or.inl h1
  refine ⟨?_, ?_, ?_, ?_⟩
  · rcases hmain inputs s hc hin with h | h <;> rw [h] <;> simp
  · intro c hcm
    rcases hmain inputs s hc hin with h | h
    · rw [h] at hcm; exact absurd hcm (List.not_mem_nil c)
    · rw [h] at hcm; exact List.mem_singleton.mp hcm
  · intro ret h1 h2
    obtain ⟨hcmd, hst⟩ := (process_connected V ret s hc).1 h1 h2
    rw [hcmd, hst]
    exact ⟨rfl, h1, rfl⟩
  · intro ret hm
    exact ((process_connected V ret s hc).2 hm).1

/-- C17 at a concrete input: the connection with handle 0x0040, then a poll whose command
fails, an MTU-response event and two more polls. -/
theorem C17_one_mtu_exchange_witness :
    (runCommands stVendor [Input.poll (fun _ => 0x41), Input.mtu_resp 0x0040 247,
        Input.poll (fun _ => 0), Input.poll (fun _ => 0)] connected0040).length ≤ 1 ∧
      (∀ c ∈ runCommands stVendor [Input.poll (fun _ => 0x41), Input.mtu_resp 0x0040 247,
          Input.poll (fun _ => 0), Input.poll (fun _ => 0)] connected0040,
        c = Command.aci_gatt_exchange_configuration connected0040.conn_handle) ∧
      (∀ ret : Command → Nat, connected0040.mtu_exchanged = 0 →
        connected0040.mtu_exchanged_wait = 0 →
        (bnrgm0_process stVendor [] ret connected0040).commands
          = [Command.aci_gatt_exchange_configuration connected0040.conn_handle] ∧
        (bnrgm0_process stVendor [] ret connected0040).state.mtu_exchanged = 0 ∧
        (bnrgm0_process stVendor [] ret connected0040).state.mtu_exchanged_wait = 1) ∧
      (∀ ret : Command → Nat,
        (connected0040.mtu_exchanged ≠ 0 ∨ connected0040.mtu_exchanged_wait ≠ 0) →
        (bnrgm0_process stVendor [] ret connected0040).commands = []) :=
  C17_one_mtu_exchange stVendor connected0040 [Input.poll (fun _ => 0x41),
    Input.mtu_resp 0x0040 247, Input.poll (fun _ => 0), Input.poll (fun _ => 0)]
    (by decide) (by simp [withinConnection])

/-- C18: an MTU-response event handled with `mtu_exchanged = 0` and `mtu_exchanged_wait` 0
(NotStarted) or 1 (InProgress) sets `mtu_exchanged = 1` (Completed), and a further
MTU-response event after it changes nothing in the state and calls nothing. -/
theorem C18_mtu_response_once (s : BleState) (h m h1 m1 : Nat)
    (hex : s.mtu_exchanged = 0)
    (hw : s.mtu_exchanged_wait = 0 ∨ s.mtu_exchanged_wait = 1) :
    (aci_att_exchange_mtu_resp_event h m s).1.mtu_exchanged = 1 ∧
      aci_att_exchange_mtu_resp_event h1 m1 (aci_att_exchange_mtu_resp_event h m s).1
        = ((aci_att_exchange_mtu_resp_event h m s).1, []) := by
  obtain ⟨e, ch, ic, tf, dm, ce, me, mw, la, ll⟩ := s
  simp only at hex hw
  subst hex
  rcases hw with hw | hw <;> subst hw <;> simp [aci_att_exchange_mtu_resp_event]

/-- C18 at a concrete input: the connection with handle 0x0040 in NotStarted. -/
theorem C18_mtu_response_once_witness :
    (aci_att_exchange_mtu_resp_event 0x0040 247 connected0040).1.mtu_exchanged = 1 ∧
      aci_att_exchange_mtu_resp_event 0x0040 247
          (aci_att_exchange_mtu_resp_event 0x0040 247 connected0040).1
        = ((aci_att_exchange_mtu_resp_event 0x0040 247 connected0040).1, []) :=
  C18_mtu_response_once connected0040 0x0040 247 0x0040 247 rfl (Or.inl rfl)

/-! ## Event demultiplexer: claims -/

/-- C19: for a packet that is not an HCI event, or whose discriminant is none of the
recognized ones, `bnrgm0_event_rx` calls nothing and returns the state as it was. -/
theorem C19_unrecognized_ignored (V : Vendor) (p : hci_uart_pckt) (s : BleState)
    (h : ¬ Recognized V p) : bnrgm0_event_rx V p s = (s, []) := by
  unfold Recognized at h
  unfold bnrgm0_event_rx
  split_ifs <;> first | rfl | (exfalso; apply h; tauto)

/-- C19 at a concrete input: an HCI event packet with the event code 0x0E (command
complete). -/
theorem C19_unrecognized_ignored_witness :
    bnrgm0_event_rx stVendor { disconnPacket stVendor 0x0801 0x13 with evt := 0x0E } advStopped
      = (advStopped, []) :=
  C19_unrecognized_ignored stVendor { disconnPacket stVendor 0x0801 0x13 with evt := 0x0E }
    advStopped (by unfold Recognized; decide)

/-- C20, failing input: the disconnection-complete packet for the connection handle 0x0801 has
a recognized discriminant, and `bnrgm0_event_rx` calls `hci_disconnection_complete_event`, but
the handler receives the handle 0x01, not 0x0801: whatever the state, the outcome is that of
the handler called with 0x01, and the on-disconnect function is called with 0x01. -/
theorem C20_disconnect_handle_changed (s : BleState) :
    Recognized stVendor (disconnPacket stVendor 0x0801 0x13) ∧
      bnrgm0_event_rx stVendor (disconnPacket stVendor 0x0801 0x13) s
        = hci_disconnection_complete_event 0 0x01 0x13 s ∧
      (bnrgm0_event_rx stVendor (disconnPacket stVendor 0x0801 0x13) s).2
        ≠ [Callback.on_disconnect 0x0801] :=
  ⟨⟨rfl, Or.inl rfl⟩, rfl, by
    show [Callback.on_disconnect 0x01] ≠ [Callback.on_disconnect 0x0801]
    decide⟩

/-! ## Advertised name buffer: claim -/

/-- The fields of the state that `bnrgm0_setLocalName` does not assign. -/
theorem setLocalName_frame (V : Vendor) (local_name : Nat → Nat) (n : Nat) (s : BleState) :
    (bnrgm0_setLocalName V local_name n s).error = s.error ∧
      (bnrgm0_setLocalName V local_name n s).conn_handle = s.conn_handle ∧
      (bnrgm0_setLocalName V local_name n s).is_connected = s.is_connected ∧
      (bnrgm0_setLocalName V local_name n s).is_tx_buffer_full = s.is_tx_buffer_full ∧
      (bnrgm0_setLocalName V local_name n s).discoverable_mode = s.discoverable_mode ∧
      (bnrgm0_setLocalName V local_name n s).connectable_mode_enabled
        = s.connectable_mode_enabled ∧
      (bnrgm0_setLocalName V local_name n s).mtu_exchanged = s.mtu_exchanged ∧
      (bnrgm0_setLocalName V local_name n s).mtu_exchanged_wait = s.mtu_exchanged_wait := by
  unfold bnrgm0_setLocalName
  simp only []
  have hf := setName_fold_fields local_name
    (List.range (if u8 n > MAX_LOCAL_NAME_AD_LEN - 1 then MAX_LOCAL_NAME_AD_LEN - 1 else u8 n))
    { s with
      local_name_AD_len :=
        u8 ((if u8 n > MAX_LOCAL_NAME_AD_LEN - 1 then MAX_LOCAL_NAME_AD_LEN - 1 else u8 n) + 1)
      local_name_AD := Function.update s.local_name_AD 0 (u8 V.AD_TYPE_COMPLETE_LOCAL_NAME) }
  exact ⟨hf.1, hf.2.1, hf.2.2.1, hf.2.2.2.1, hf.2.2.2.2.1, hf.2.2.2.2.2.1, hf.2.2.2.2.2.2.1,
    hf.2.2.2.2.2.2.2.1⟩

/-- C21: `bnrgm0_setLocalName` with a length `n` in 0..255 stores the type tag at index 0 and
the first `min (n, 20)` name bytes behind it, sets the payload length to `min (n, 20) + 1`
(at most 21), leaves every index above `min (n, 20)`, so every index from 21 on, as it was, and
changes no other field of the state. -/
theorem C21_setLocalName (V : Vendor) (local_name : Nat → Nat) (n : Nat) (s : BleState)
    (hn : n < 256) (hV : V.AD_TYPE_COMPLETE_LOCAL_NAME < 256) :
    (bnrgm0_setLocalName V local_name n s).local_name_AD 0 = V.AD_TYPE_COMPLETE_LOCAL_NAME ∧
      (∀ i, i < min n 20 →
        (bnrgm0_setLocalName V local_name n s).local_name_AD (i + 1) = u8 (local_name i)) ∧
      (bnrgm0_setLocalName V local_name n s).local_name_AD_len = min n 20 + 1 ∧
      (bnrgm0_setLocalName V local_name n s).local_name_AD_len ≤ MAX_LOCAL_NAME_AD_LEN ∧
      (∀ j, min n 20 < j →
        (bnrgm0_setLocalName V local_name n s).local_name_AD j = s.local_name_AD j) ∧
      (∀ j, MAX_LOCAL_NAME_AD_LEN ≤ j →
        (bnrgm0_setLocalName V local_name n s).local_name_AD j = s.local_name_AD j) ∧
      ((bnrgm0_setLocalName V local_name n s).error = s.error ∧
        (bnrgm0_setLocalName V local_name n s).conn_handle = s.conn_handle ∧
        (bnrgm0_setLocalName V local_name n s).is_connected = s.is_connected ∧
        (bnrgm0_setLocalName V local_name n s).is_tx_buffer_full = s.is_tx_buffer_full ∧
        (bnrgm0_setLocalName V local_name n s).discoverable_mode = s.discoverable_mode ∧
        (bnrgm0_setLocalName V local_name n s).connectable_mode_enabled
          = s.connectable_mode_enabled ∧
        (bnrgm0_setLocalName V local_name n s).mtu_exchanged = s.mtu_exchanged ∧
        (bnrgm0_setLocalName V local_name n s).mtu_exchanged_wait = s.mtu_exchanged_wait) := by
  have hu : u8 n = n := Nat.mod_eq_of_lt hn
  have hA : u8 V.AD_TYPE_COMPLETE_LOCAL_NAME = V.AD_TYPE_COMPLETE_LOCAL_NAME :=
    Nat.mod_eq_of_lt hV
  obtain ⟨hlen, hname, _⟩ := setLocalName_spec V local_name n s
  rw [hu] at hlen hname
  have hM : MAX_LOCAL_NAME_AD_LEN = 21 := rfl
  refine ⟨?_, ?_, hlen, ?_, ?_, ?_, setLocalName_frame V local_name n s⟩
  · rw [hname 0, if_pos rfl, hA]
  · intro i hi
    rw [hname (i + 1), if_neg (Nat.succ_ne_zero i), if_pos (by omega)]
    congr 1
  · rw [hlen, hM]
    omega
  · intro j hj
    rw [hname j, if_neg (by omega), if_neg (by omega)]
  · intro j hj
    rw [hM] at hj
    rw [hname j, if_neg (by omega), if_neg (by omega)]

/-- C21 at a concrete input: a name of 30 bytes (65, 66, ...) set in the boot state. -/
theorem C21_setLocalName_witness :
    (bnrgm0_setLocalName stVendor (fun i => 65 + i) 30 (ble_state_init stVendor)).local_name_AD 0
        = stVendor.AD_TYPE_COMPLETE_LOCAL_NAME ∧
      (∀ i, i < min 30 20 →
        (bnrgm0_setLocalName stVendor (fun i => 65 + i) 30
          (ble_state_init stVendor)).local_name_AD (i + 1) = u8 ((fun i => 65 + i) i)) ∧
      (bnrgm0_setLocalName stVendor (fun i => 65 + i) 30
        (ble_state_init stVendor)).local_name_AD_len = min 30 20 + 1 ∧
      (bnrgm0_setLocalName stVendor (fun i => 65 + i) 30
        (ble_state_init stVendor)).local_name_AD_len ≤ MAX_LOCAL_NAME_AD_LEN ∧
      (∀ j, min 30 20 < j →
        (bnrgm0_setLocalName stVendor (fun i => 65 + i) 30
          (ble_state_init stVendor)).local_name_AD j = (ble_state_init stVendor).local_name_AD j) ∧
      (∀ j, MAX_LOCAL_NAME_AD_LEN ≤ j →
        (bnrgm0_setLocalName stVendor (fun i => 65 + i) 30
          (ble_state_init stVendor)).local_name_AD j = (ble_state_init stVendor).local_name_AD j) ∧
      ((bnrgm0_setLocalName stVendor (fun i => 65 + i) 30 (ble_state_init stVendor)).error
          = (ble_state_init stVendor).error ∧
        (bnrgm0_setLocalName stVendor (fun i => 65 + i) 30 (ble_state_init stVendor)).conn_handle
          = (ble_state_init stVendor).conn_handle ∧
        (bnrgm0_setLocalName stVendor (fun i => 65 + i) 30 (ble_state_init stVendor)).is_connected
          = (ble_state_init stVendor).is_connected ∧
        (bnrgm0_setLocalName stVendor (fun i => 65 + i) 30
          (ble_state_init stVendor)).is_tx_buffer_full
          = (ble_state_init stVendor).is_tx_buffer_full ∧
        (bnrgm0_setLocalName stVendor (fun i => 65 + i) 30
          (ble_state_init stVendor)).discoverable_mode
          = (ble_state_init stVendor).discoverable_mode ∧
        (bnrgm0_setLocalName stVendor (fun i => 65 + i) 30
          (ble_state_init stVendor)).connectable_mode_enabled
          = (ble_state_init stVendor).connectable_mode_enabled ∧
        (bnrgm0_setLocalName stVendor (fun i => 65 + i) 30 (ble_state_init stVendor)).mtu_exchanged
          = (ble_state_init stVendor).mtu_exchanged ∧
        (bnrgm0_setLocalName stVendor (fun i => 65 + i) 30
          (ble_state_init stVendor)).mtu_exchanged_wait
          = (ble_state_init stVendor).mtu_exchanged_wait) :=
  C21_setLocalName stVendor (fun i => 65 + i) 30 (ble_state_init stVendor) (by decide)
    (by decide)

/-! ## Characteristics: claims -/

/-- C23, failing input: the CCCD buffer 02 00 of length 2 means Indication Enabled (value
0x0002), and `bnrgm0_isCCCDIndEnabled` returns false; for the buffer 00 01 (value 0x0100, the
indication flag clear) it returns true.  It tests `cccd_data[1] == 0x01`.  For a length other
than 2 it returns false. -/
theorem C23_indication_test (cccd_data : Nat → Nat) (cccd_data_len : Nat) :
    (IndicationEnabled (cccdBuffer 0x02 0x00) 2 ∧
        bnrgm0_isCCCDIndEnabled (cccdBuffer 0x02 0x00) 2 = false) ∧
      (¬ IndicationEnabled (cccdBuffer 0x00 0x01) 2 ∧
        bnrgm0_isCCCDIndEnabled (cccdBuffer 0x00 0x01) 2 = true) ∧
      (bnrgm0_isCCCDIndEnabled cccd_data cccd_data_len = true ↔
        (u8 cccd_data_len = 2 ∧ u8 (cccd_data 1) = 0x01)) := by
  refine ⟨⟨⟨rfl, by decide⟩, rfl⟩, ⟨fun h => absurd h.2 (by decide), rfl⟩, ?_⟩
  unfold bnrgm0_isCCCDIndEnabled
  split_ifs with h1 h2 <;> simp_all

/-- C24, failing input: the CCCD buffer 03 00 of length 2 has the notification flag and the
indication flag set (value 0x0003), so it means Notification Enabled, and
`bnrgm0_isCCCDNotiEnabled` returns false.  It tests `cccd_data[0] == 0x01`.  For a length other
than 2 it returns false. -/
theorem C24_notification_test (cccd_data : Nat → Nat) (cccd_data_len : Nat) :
    (NotificationEnabled (cccdBuffer 0x03 0x00) 2 ∧
        bnrgm0_isCCCDNotiEnabled (cccdBuffer 0x03 0x00) 2 = false) ∧
      (bnrgm0_isCCCDNotiEnabled cccd_data cccd_data_len = true ↔
        (u8 cccd_data_len = 2 ∧ u8 (cccd_data 0) = 0x01)) := by
  refine ⟨⟨⟨rfl, by decide⟩, rfl⟩, ?_⟩
  unfold bnrgm0_isCCCDNotiEnabled
  split_ifs with h1 h2 <;> simp_all

/-! ## Poll entry point: commands of one call -/

/-- The commands of a poll are those of a poll without pending events in the state left by
the event processing. -/
theorem process_after_events (V : Vendor) (pending : List hci_uart_pckt) (ret : Command → Nat)
    (s : BleState) :
    (bnrgm0_process V pending ret s).commands
      = (bnrgm0_process V [] ret (hci_user_evt_proc V pending s).1).commands := by
  simp only [bnrgm0_process, evt_proc_nil]
  split_ifs <;> rfl

/-- A poll in Idle when neither advertising branch applies. -/
theorem process_idle_none (V : Vendor) (ret : Command → Nat) (s : BleState)
    (hc : s.is_connected = 0)
    (h1 : ¬ (s.discoverable_mode = DISCOVERABLE_MODE_STOPPED ∧ s.connectable_mode_enabled ≠ 0))
    (h2 : ¬ (s.discoverable_mode = DISCOVERABLE_MODE_STARTED ∧ s.connectable_mode_enabled = 0)) :
    (bnrgm0_process V [] ret s).commands = [] := by
  simp only [bnrgm0_process, evt_proc_nil, hc, if_true, if_neg h1, if_neg h2]

/-- C27, as stated, fails: in the boot state with connectable mode enabled one
`bnrgm0_process` call issues two commands to the radio, whatever they return (here the status
0x41 for both). -/
theorem C27_counterexample :
    (bnrgm0_process stVendor [] (fun _ => 0x41) advStopped).commands
      = [Command.hci_le_set_scan_resp_data 0 [],
         Command.aci_gap_set_discoverable 0x00 0x0030 0x0640 0x00 0x00 7
           [0x09, 69, 79, 78, 66, 76, 69] 0 [] 0x0 0x0] ∧
      (bnrgm0_process stVendor [] (fun _ => 0x41) advStopped).commands.length = 2 :=
  ⟨rfl, rfl⟩

/-- C27, amended: for every state, every pending events and every command outcome, one
`bnrgm0_process` call issues, after its event processing, either no command, or the
start-advertising pair (scan-response command, then set-discoverable command), or the single
stop-advertising command, or the single exchange-MTU command: never two of start advertising,
stop advertising and exchange MTU. -/
theorem C27_commands_of_a_poll (V : Vendor) (pending : List hci_uart_pckt)
    (ret : Command → Nat) (s : BleState) :
    (bnrgm0_process V pending ret s).commands = [] ∨
      (bnrgm0_process V pending ret s).commands
        = [Command.hci_le_set_scan_resp_data 0 [],
           setDiscoverable V (hci_user_evt_proc V pending s).1] ∨
      (bnrgm0_process V pending ret s).commands = [Command.aci_gap_set_non_discoverable] ∨
      (bnrgm0_process V pending ret s).commands
        = [Command.aci_gatt_exchange_configuration (hci_user_evt_proc V pending s).1.conn_handle]
    := by
  rw [process_after_events]
  generalize (hci_user_evt_proc V pending s).1 = s1
  by_cases hc : s1.is_connected = 0
  · by_cases h1 : s1.discoverable_mode = DISCOVERABLE_MODE_STOPPED ∧
        s1.connectable_mode_enabled ≠ 0
    · exact Or.inr (Or.inl (process_start V ret s1 hc h1.1 h1.2).1)
    · by_cases h2 : s1.discoverable_mode = DISCOVERABLE_MODE_STARTED ∧
          s1.connectable_mode_enabled = 0
      · exact Or.inr (Or.inr (Or.inl (process_stop V ret s1 hc h2.1 h2.2).1))
      · exact Or.inl (process_idle_none V ret s1 hc h1 h2)
  · by_cases hm : s1.mtu_exchanged = 0 ∧ s1.mtu_exchanged_wait = 0
    · exact Or.inr (Or.inr (Or.inr ((process_connected V ret s1 hc).1 hm.1 hm.2).1))
    · refine Or.inl ((process_connected V ret s1 hc).2 ?_).1
      by_cases h : s1.mtu_exchanged = 0
      · exact Or.inr (fun h2 => hm ⟨h, h2⟩)
      · exact Or.inl h

/-! ## Bus traces: lemmas -/

theorem idleAttempt_window : Window idleAttempt :=
  ⟨send_header_master, [], rfl, fun _ h => absurd h (List.not_mem_nil _)⟩

theorem payloadAttempt_window (buffer : Nat → Nat) (size : Nat) :
    Window (payloadAttempt buffer size) :=
  ⟨send_header_master, [BusOp.payload_write (payloadBytes buffer size)], rfl, fun op h => by
    rw [List.mem_singleton.mp h]; rfl⟩

/-- Every pass of the loop of `HCI_TL_SPI_Send` appends one chip-select window to the trace:
the one without payload, or the one with the payload, which needs `size ≤ 255`. -/
theorem sendAttempt_window (hs : Header) (buffer : Nat → Nat) (size : Nat) (tr : List BusOp) :
    (sendAttempt hs buffer size tr).2 = tr ++ idleAttempt ∨
      ((sendAttempt hs buffer size tr).2 = tr ++ payloadAttempt buffer size ∧ size ≤ 255) := by
  by_cases h : u8 hs.b0 = 0x02 ∧ size ≤ u8 hs.b1
  · right
    rw [sendAttempt_accepted hs buffer size tr h]
    have : u8 hs.b1 < 256 := Nat.mod_lt _ (by decide)
    exact ⟨rfl, by omega⟩
  · left
    exact (sendAttempt_rejected hs buffer size tr h).2

/-- The trace of the loop of `HCI_TL_SPI_Send` is the trace before it followed by one or more
chip-select windows. -/
theorem sendLoop_windows (dev : Nat → Header) (millis : Nat → Nat) (buffer : Nat → Nat)
    (size tickstart : Nat) :
    ∀ (fuel k : Nat) (tr : List BusOp) (r : Int) (t : List BusOp),
      sendLoop dev millis buffer size tickstart fuel k tr = some (r, t) →
      ∃ ws : List (List BusOp), ws ≠ [] ∧ t = tr ++ ws.flatten ∧
        ∀ w ∈ ws, w = idleAttempt ∨ (w = payloadAttempt buffer size ∧ size ≤ 255) := by
  intro fuel
  induction fuel with
  | zero => intro k tr r t h; simp [sendLoop] at h
  | succ fuel ih =>
    intro k tr r t h
    have hone : ∃ w, (sendAttempt (dev k) buffer size tr).2 = tr ++ w ∧
        (w = idleAttempt ∨ (w = payloadAttempt buffer size ∧ size ≤ 255)) := by
      rcases sendAttempt_window (dev k) buffer size tr with hw | hw
      · exact ⟨_, hw, Or.inl rfl⟩
      · exact ⟨_, hw.1, Or.inr ⟨rfl, hw.2⟩⟩
    obtain ⟨w, hw, hkind⟩ := hone
    have hsingle : ∀ x, x ∈ [w] →
        x = idleAttempt ∨ (x = payloadAttempt buffer size ∧ size ≤ 255) := by
      intro x hx
      rw [List.mem_singleton.mp hx]
      exact hkind
    simp only [sendLoop] at h
    split_ifs at h with h1 h2
    · simp only [Option.some.injEq, Prod.mk.injEq] at h
      refine ⟨[w], by simp, ?_, hsingle⟩
      rw [← h.2, hw]
      simp
    · obtain ⟨ws, _, ht, hws⟩ := ih _ _ _ _ h
      refine ⟨w :: ws, by simp, ?_, ?_⟩
      · rw [ht, hw]
        simp
      · intro x hx
        rcases List.mem_cons.mp hx with hx | hx
        · rw [hx]; exact hkind
        · exact hws x hx
    · simp only [Option.some.injEq, Prod.mk.injEq] at h
      refine ⟨[w], by simp, ?_, hsingle⟩
      rw [← h.2, hw]
      simp

/-- The trace of a returning `HCI_TL_SPI_Send` call: interrupt off, one or more chip-select
windows, interrupt on. -/
theorem send_windows (dev : Nat → Header) (millis : Nat → Nat) (buffer : Nat → Nat)
    (size fuel : Nat) (r : Int) (t : List BusOp)
    (h : HCI_TL_SPI_Send dev millis buffer size fuel = some (r, t)) :
    ∃ ws : List (List BusOp), ws ≠ [] ∧
      t = [BusOp.irq_disable] ++ ws.flatten ++ [BusOp.irq_enable] ∧
      ∀ w ∈ ws, w = idleAttempt ∨ (w = payloadAttempt buffer size ∧ size ≤ 255) := by
  unfold HCI_TL_SPI_Send at h
  cases hl : sendLoop dev millis buffer size (millis 0) fuel 0 [BusOp.irq_disable] with
  | none => simp [hl] at h
  | some x =>
    obtain ⟨r0, t0⟩ := x
    simp only [hl, Option.some.injEq, Prod.mk.injEq] at h
    obtain ⟨ws, hne, ht, hws⟩ := sendLoop_windows dev millis buffer size (millis 0) fuel 0 _ r0
      t0 hl
    exact ⟨ws, hne, by rw [← h.2, ht], hws⟩

theorem send_framed (dev : Nat → Header) (millis : Nat → Nat) (buffer : Nat → Nat)
    (size fuel : Nat) (r : Int) (t : List BusOp)
    (h : HCI_TL_SPI_Send dev millis buffer size fuel = some (r, t)) : Framed t := by
  obtain ⟨ws, hne, ht, hws⟩ := send_windows dev millis buffer size fuel r t h
  refine ⟨ws, hne, ?_, ht⟩
  intro w hw
  rcases hws w hw with h1 | h1
  · rw [h1]; exact idleAttempt_window
  · rw [h1.1]; exact payloadAttempt_window buffer size

/-- The trace of a returning `HCI_TL_SPI_Receive` call: interrupt off, one chip-select window
with the header exchange and the byte reads, interrupt on. -/
theorem receive_framed (header_slave : Header) (rx buffer : Nat → Nat) (size fuel : Nat)
    (r : RecvResult) (h : HCI_TL_SPI_Receive header_slave rx buffer size fuel = some r) :
    Framed r.trace := by
  have hwin : ∀ n : Nat, Window (BusOp.cs_reset :: BusOp.header_exchange receive_header_master
      :: (List.replicate n (BusOp.byte_read 0xff) ++ [BusOp.cs_set])) := fun n =>
    ⟨receive_header_master, List.replicate n (BusOp.byte_read 0xff), rfl, fun op hop => by
      rw [(List.mem_replicate.mp hop).2]; rfl⟩
  have hform : ∃ n : Nat, r.trace = [BusOp.irq_disable] ++
      [BusOp.cs_reset :: BusOp.header_exchange receive_header_master
        :: (List.replicate n (BusOp.byte_read 0xff) ++ [BusOp.cs_set])].flatten
      ++ [BusOp.irq_enable] := by
    unfold HCI_TL_SPI_Receive at h
    simp only [] at h
    by_cases h1 : u8 header_slave.b0 = 0x02
    · rw [if_pos h1] at h
      by_cases h2 : u16 ((u8 header_slave.b4 <<< 8) ||| u8 header_slave.b3) > 0
      · rw [if_pos h2] at h
        generalize (if u16 ((u8 header_slave.b4 <<< 8) ||| u8 header_slave.b3) > size then size
          else u16 ((u8 header_slave.b4 <<< 8) ||| u8 header_slave.b3)) = bc at h
        cases hl : recvLoop rx bc fuel 0 0 buffer with
        | none =>
          rw [hl] at h
          exact absurd h (by simp)
        | some x =>
          rw [hl] at h
          simp only [Option.some.injEq] at h
          refine ⟨x.reads, ?_⟩
          rw [← h]
          simp
      · rw [if_neg h2] at h
        simp only [Option.some.injEq] at h
        refine ⟨0, ?_⟩
        rw [← h]
        simp
    · rw [if_neg h1] at h
      simp only [Option.some.injEq] at h
      refine ⟨0, ?_⟩
      rw [← h]
      simp
  obtain ⟨n, hn⟩ := hform
  exact ⟨[_], by simp, fun w hw => by rw [List.mem_singleton.mp hw]; exact hwin n, hn⟩

/-- Over operations that are not interrupt operations the interrupt state does not change. -/
theorem irq_over_bus (l : List BusOp)
    (hl : ∀ op ∈ l, op ≠ BusOp.irq_disable ∧ op ≠ BusOp.irq_enable) (rest : List BusOp) :
    irqAfter false (l ++ rest) = irqAfter false rest ∧
      irqOffOnBus false (l ++ rest) = irqOffOnBus false rest := by
  induction l with
  | nil => exact ⟨rfl, rfl⟩
  | cons op l ih =>
    have hop := hl op (List.mem_cons_self _ _)
    have ih' := ih (fun x hx => hl x (List.mem_cons_of_mem _ hx))
    cases op with
    | irq_disable => exact absurd rfl hop.1
    | irq_enable => exact absurd rfl hop.2
    | cs_reset => simpa [irqAfter, irqOffOnBus] using ih'
    | cs_set => simpa [irqAfter, irqOffOnBus] using ih'
    | header_exchange hm => simpa [irqAfter, irqOffOnBus] using ih'
    | payload_write b => simpa [irqAfter, irqOffOnBus] using ih'
    | byte_read t => simpa [irqAfter, irqOffOnBus] using ih'

/-- The operations of a chip-select window are not interrupt operations. -/
theorem window_no_irq (w : List BusOp) (hw : Window w) :
    ∀ op ∈ w, op ≠ BusOp.irq_disable ∧ op ≠ BusOp.irq_enable := by
  obtain ⟨hm, body, rfl, hbody⟩ := hw
  intro op hop
  simp only [List.mem_cons, List.mem_append, List.mem_singleton] at hop
  rcases hop with h | h | h | h
  · rw [h]; exact ⟨by simp, by simp⟩
  · rw [h]; exact ⟨by simp, by simp⟩
  · have := hbody op h
    constructor <;> (intro he; rw [he] at this; simp [isPayloadOp] at this)
  · rcases h with h | h
    · rw [h]; exact ⟨by simp, by simp⟩
    · exact absurd h (List.not_mem_nil _)

/-- Over a framed trace the interrupt is off at every chip-select and bus operation and on at
the end, whatever its state before. -/
theorem framed_irq (tr : List BusOp) (h : Framed tr) (enabled : Bool) :
    irqOffOnBus enabled tr = true ∧ irqAfter enabled tr = true := by
  obtain ⟨ws, _, hws, rfl⟩ := h
  have hno : ∀ op ∈ ws.flatten, op ≠ BusOp.irq_disable ∧ op ≠ BusOp.irq_enable := by
    intro op hop
    obtain ⟨w, hw, hopw⟩ := List.mem_flatten.mp hop
    exact window_no_irq w (hws w hw) op hopw
  have hb := irq_over_bus ws.flatten hno [BusOp.irq_enable]
  constructor
  · show irqOffOnBus false (ws.flatten ++ [BusOp.irq_enable]) = true
    rw [hb.2]
    rfl
  · show irqAfter false (ws.flatten ++ [BusOp.irq_enable]) = true
    rw [hb.1]
    rfl

/-- For a ready header reply that leaves 256 or more bytes to read, `HCI_TL_SPI_Receive` never
returns: chip-select stays asserted and the interrupt disabled. -/
theorem receive_wide (header_slave : Header) (rx buffer : Nat → Nat) (size fuel : Nat)
    (hready : u8 header_slave.b0 = 0x02)
    (hwide : 256 ≤ min (u8 header_slave.b3 + 256 * u8 header_slave.b4) size) :
    HCI_TL_SPI_Receive header_slave rx buffer size fuel = none := by
  have hbc : u16 ((u8 header_slave.b4 <<< 8) ||| u8 header_slave.b3)
      = u8 header_slave.b3 + 256 * u8 header_slave.b4 := byte_count_le _ _
  generalize u8 header_slave.b3 + 256 * u8 header_slave.b4 = avail at hwide hbc
  have h0 : avail > 0 := by omega
  have hmin : (if avail > size then size else avail) = min avail size := by
    split_ifs with h <;> omega
  simp only [HCI_TL_SPI_Receive, if_pos hready, hbc, if_pos h0, hmin,
    recvLoop_wide rx (min avail size) hwide fuel 0 0 buffer (by decide)]

/-! ## Bus traces: claims -/

/-- C25, failing input: buffer size 1024 and the ready header reply 02 00 00 FF FF (65535 bytes
available).  `HCI_TL_SPI_Receive` asserts chip-select, exchanges the header and never leaves
the byte-read loop, so the release of chip-select behind the loop is never reached, whatever
the fuel.  Every call of `HCI_TL_SPI_Send` or `HCI_TL_SPI_Receive` that returns has a trace
made of chip-select windows (assertion, one header exchange, payload transfers, release), and
every pass of the send loop appends one such window. -/
theorem C25_chip_select_windows :
    (∀ (rx buffer : Nat → Nat) (fuel : Nat),
        HCI_TL_SPI_Receive ⟨0x02, 0x00, 0x00, 0xFF, 0xFF⟩ rx buffer 1024 fuel = none) ∧
      (∀ (dev : Nat → Header) (millis buffer : Nat → Nat) (size fuel : Nat) (r : Int)
          (t : List BusOp),
        HCI_TL_SPI_Send dev millis buffer size fuel = some (r, t) → Framed t) ∧
      (∀ (header_slave : Header) (rx buffer : Nat → Nat) (size fuel : Nat) (r : RecvResult),
        HCI_TL_SPI_Receive header_slave rx buffer size fuel = some r → Framed r.trace) ∧
      (∀ (header_slave : Header) (buffer : Nat → Nat) (size : Nat) (tr : List BusOp),
        ∃ w, Window w ∧ (sendAttempt header_slave buffer size tr).2 = tr ++ w) := by
  refine ⟨?_, ?_, ?_, ?_⟩
  · intro rx buffer fuel
    exact receive_wide _ rx buffer 1024 fuel rfl (by decide)
  · intro dev millis buffer size fuel r t h
    exact send_framed dev millis buffer size fuel r t h
  · intro hs rx buffer size fuel r h
    exact receive_framed hs rx buffer size fuel r h
  · intro hs buffer size tr
    rcases sendAttempt_window hs buffer size tr with h | h
    · exact ⟨_, idleAttempt_window, h⟩
    · exact ⟨_, payloadAttempt_window buffer size, h.1⟩

/-- C26, as stated, fails: with the data-available interrupt disabled before the call, a
`HCI_TL_SPI_Receive` call (here with a device that is not ready) leaves it enabled. -/
theorem C26_counterexample :
    (HCI_TL_SPI_Receive ⟨0xFF, 0, 0, 0, 0⟩ (fun _ => 0) (fun _ => 0) 8 0).map
        (fun r => r.trace)
        = some [BusOp.irq_disable, BusOp.cs_reset, BusOp.header_exchange receive_header_master,
            BusOp.cs_set, BusOp.irq_enable] ∧
      irqAfter false [BusOp.irq_disable, BusOp.cs_reset,
        BusOp.header_exchange receive_header_master, BusOp.cs_set, BusOp.irq_enable] = true ∧
      irqAfter false [BusOp.irq_disable, BusOp.cs_reset,
        BusOp.header_exchange receive_header_master, BusOp.cs_set, BusOp.irq_enable] ≠ false := by
  decide

/-- C26, amended: over every call of `HCI_TL_SPI_Send` or `HCI_TL_SPI_Receive` that returns,
the data-available interrupt is disabled at every chip-select and bus operation, and it is
enabled after the call, whether it was enabled or disabled before. -/
theorem C26_interrupt_masked (enabled : Bool) :
    (∀ (dev : Nat → Header) (millis buffer : Nat → Nat) (size fuel : Nat) (r : Int)
          (t : List BusOp),
        HCI_TL_SPI_Send dev millis buffer size fuel = some (r, t) →
        irqOffOnBus enabled t = true ∧ irqAfter enabled t = true) ∧
      (∀ (header_slave : Header) (rx buffer : Nat → Nat) (size fuel : Nat) (r : RecvResult),
        HCI_TL_SPI_Receive header_slave rx buffer size fuel = some r →
        irqOffOnBus enabled r.trace = true ∧ irqAfter enabled r.trace = true) := by
  constructor
  · intro dev millis buffer size fuel r t h
    exact framed_irq t (send_framed dev millis buffer size fuel r t h) enabled
  · intro hs rx buffer size fuel r h
    exact framed_irq r.trace (receive_framed hs rx buffer size fuel r h) enabled

/-- C28: the payload is put on the bus (and its echo into `read_char_buf`) only in a pass with
`size ≤ 255`, and then it has `size` bytes, at most `MAX_BUFFER_SIZE`; with `size > 255` every
pass of the loop is without payload and has a negative result, and a call that returns has no
payload write in its trace and does not return 0. -/
theorem C28_scratch_buffer_bound :
    (∀ (header_slave : Header) (buffer : Nat → Nat) (size : Nat) (tr : List BusOp),
        255 < size →
        (sendAttempt header_slave buffer size tr).1 < 0 ∧
        (sendAttempt header_slave buffer size tr).2 = tr ++ idleAttempt) ∧
      (∀ (dev : Nat → Header) (millis buffer : Nat → Nat) (size fuel : Nat) (r : Int)
          (t : List BusOp),
        HCI_TL_SPI_Send dev millis buffer size fuel = some (r, t) →
        (∀ bytes, BusOp.payload_write bytes ∈ t →
          size ≤ 255 ∧ bytes.length = size ∧ bytes.length ≤ MAX_BUFFER_SIZE) ∧
        (255 < size → r ≠ 0 ∧ ∀ bytes, BusOp.payload_write bytes ∉ t)) := by
  have hrej : ∀ (hs : Header) (size : Nat), 255 < size →
      ¬ (u8 hs.b0 = 0x02 ∧ size ≤ u8 hs.b1) := by
    intro hs size hsz h
    have : u8 hs.b1 < 256 := Nat.mod_lt _ (by decide)
    omega
  have hmem : ∀ (dev : Nat → Header) (millis buffer : Nat → Nat) (size fuel : Nat) (r : Int)
      (t : List BusOp), HCI_TL_SPI_Send dev millis buffer size fuel = some (r, t) →
      ∀ bytes, BusOp.payload_write bytes ∈ t →
        size ≤ 255 ∧ bytes.length = size ∧ bytes.length ≤ MAX_BUFFER_SIZE := by
    intro dev millis buffer size fuel r t h bytes hb
    obtain ⟨ws, _, ht, hws⟩ := send_windows dev millis buffer size fuel r t h
    rw [ht] at hb
    simp only [List.mem_append, List.mem_singleton, List.mem_flatten] at hb
    rcases hb with (hb | ⟨w, hw, hbw⟩) | hb
    · exact absurd hb (by simp)
    · rcases hws w hw with h1 | h1
      · rw [h1] at hbw
        simp [idleAttempt] at hbw
      · rw [h1.1] at hbw
        simp only [payloadAttempt, List.mem_cons, List.mem_singleton, BusOp.payload_write.injEq]
          at hbw
        rcases hbw with hbw | hbw | hbw | hbw
        · exact absurd hbw (by simp)
        · exact absurd hbw (by simp)
        · have hlen : bytes.length = size := by
            rw [hbw]; simp [payloadBytes]
          exact ⟨h1.2, hlen, by rw [hlen]; exact h1.2⟩
        · rcases hbw with hbw | hbw
          · exact absurd hbw (by simp)
          · exact absurd hbw (List.not_mem_nil _)
    · exact absurd hb (by simp)
  refine ⟨?_, ?_⟩
  · intro hs buffer size tr hsz
    exact sendAttempt_rejected hs buffer size tr (hrej hs size hsz)
  · intro dev millis buffer size fuel r t h
    refine ⟨hmem dev millis buffer size fuel r t h, ?_⟩
    intro hsz
    constructor
    · obtain ⟨t0, h0⟩ := loop_of_send dev millis buffer size fuel r t h
      have := sendLoop_all_rejected dev millis buffer size (millis 0)
        (fun j => hrej (dev j) size hsz) fuel 0 _ r t0 h0
      rw [this]
      decide
    · intro bytes hb
      have := (hmem dev millis buffer size fuel r t h bytes hb).1
      omega

/-- C29, failing input: buffer size 512 and the ready header reply 02 00 00 2C 01 (300 bytes
available), so `min (available, size) = 300`.  The byte-read loop is never left, whatever the
fuel: the 8-bit counter `len` wraps from 255 to 0 and never reaches 300.  The call does not
return either. -/
theorem C29_read_loop_never_left (rx buffer : Nat → Nat) (fuel : Nat) :
    min (u8 0x2C + 256 * u8 0x01) 512 = 300 ∧
      recvLoop rx 300 fuel 0 0 buffer = none ∧
      HCI_TL_SPI_Receive ⟨0x02, 0x00, 0x00, 0x2C, 0x01⟩ rx buffer 512 fuel = none :=
  ⟨by decide, recvLoop_wide rx 300 (by decide) fuel 0 0 buffer (by decide),
    receive_wide _ rx buffer 512 fuel rfl (by decide)⟩

end Bnrgm0
